import Mathlib

/-!
Verification of the rradio packet codec, peer directory and serial line
classification (League-Microbit/pxt-rradio, `src/rradio/`).

Bytes are modelled as natural numbers below 256 (`List Nat` for byte
strings).  Python `struct` packing raises `struct.error` on out-of-range
values, so encoders return `Option`; decoding raises `ValueError`s, so
parsers return `Except PyErr`.
-/

/-- The error values the Python code can raise.  Each constructor records one
`raise` site (or exception kind) of the source. -/
inductive PyErr where
  /-- `parse_packet`: ValueError "Packet too short to decode". -/
  | tooShortToDecode
  /-- `RadioPacket._parse_header`: ValueError "Packet too short: expected at
  least E bytes, got A". -/
  | headerShort (expected actual : Nat)
  /-- `parse_packet`: ValueError "Packet too short for CLS: expected E bytes,
  got A". -/
  | shortForClass (expected actual : Nat)
  /-- per-class `__init__`: ValueError "Not a NAME packet". -/
  | notVariant (name : String)
  /-- per-class `__init__`: ValueError "NAME packet must be E bytes, got A". -/
  | wrongTotal (name : String) (expected actual : Nat)
  /-- Python `AttributeError`: an attribute access on an object lacking it. -/
  | attributeError
  deriving DecidableEq, Repr

deriving instance DecidableEq for Except

/-! ## struct formats

`struct.Struct` sizes for the little-endian format strings used by the
source (`<` prefix: no padding, standard sizes). -/

/-- One conversion character of a `struct` format string. -/
inductive Fmt where
  | B   -- unsigned 8-bit
  | H   -- unsigned 16-bit
  | I   -- unsigned 32-bit
  | h   -- signed 16-bit
  | i   -- signed 32-bit
  deriving DecidableEq

/-- `struct.calcsize` of one conversion character. -/
def Fmt.size : Fmt → Nat
  | .B => 1
  | .H => 2
  | .I => 4
  | .h => 2
  | .i => 4

/-- `struct.calcsize` of a `<`-prefixed format string. -/
def structSize (f : List Fmt) : Nat := (f.map Fmt.size).sum

/-- `RadioPacket.HEADER_STRUCT = struct.Struct("<Bii")`, size 9. -/
def HEADER_SIZE : Nat := structSize [.B, .i, .i]

/-- `BotCommandPacket.PAYLOAD_STRUCT = struct.Struct("<Bhhhhhhhi")`. -/
def BotCommandPacket.TOTAL_SIZE : Nat :=
  HEADER_SIZE + structSize [.B, .h, .h, .h, .h, .h, .h, .h, .i]

/-- `BotStatusPacket.PAYLOAD_STRUCT = struct.Struct("<Bhhh")`. -/
def BotStatusPacket.TOTAL_SIZE : Nat := HEADER_SIZE + structSize [.B, .h, .h, .h]

/-- `DisplayPacket.PAYLOAD_STRUCT = struct.Struct("<BBI12B")`. -/
def DisplayPacket.TOTAL_SIZE : Nat :=
  HEADER_SIZE + structSize ([.B, .B, .I] ++ List.replicate 12 .B)

/-- `HereIAmPacket.PAYLOAD_STRUCT = struct.Struct("<BHHHI")`. -/
def HereIAmPacket.TOTAL_SIZE : Nat := HEADER_SIZE + structSize [.B, .H, .H, .H, .I]

/-- `JoystickPacket.PAYLOAD_STRUCT = struct.Struct("<HHBhhh")`. -/
def JoystickPacket.TOTAL_SIZE : Nat := HEADER_SIZE + structSize [.H, .H, .B, .h, .h, .h]

/-! ## struct packing and unpacking primitives -/

/-- The two little-endian bytes of a 16-bit value. -/
def leBytes2 (n : Nat) : List Nat := [n % 256, n / 256 % 256]

/-- The four little-endian bytes of a 32-bit value. -/
def leBytes4 (n : Nat) : List Nat :=
  [n % 256, n / 256 % 256, n / 65536 % 256, n / 16777216 % 256]

/-- `struct.pack` of a `B` field: requires `0 <= v <= 255`, else struct.error. -/
def packU8 (v : Nat) : Option (List Nat) :=
  if v ≤ 255 then some [v] else none

/-- `struct.pack` of an `H` field. -/
def packU16 (v : Nat) : Option (List Nat) :=
  if v ≤ 65535 then some (leBytes2 v) else none

/-- `struct.pack` of an `I` field. -/
def packU32 (v : Nat) : Option (List Nat) :=
  if v ≤ 4294967295 then some (leBytes4 v) else none

/-- `struct.pack` of an `h` field: requires `-32768 <= v <= 32767`. -/
def packI16 (v : Int) : Option (List Nat) :=
  if -32768 ≤ v ∧ v ≤ 32767 then some (leBytes2 (v % 65536).toNat) else none

/-- `struct.pack` of an `i` field: requires `-2^31 <= v <= 2^31 - 1`. -/
def packI32 (v : Int) : Option (List Nat) :=
  if -2147483648 ≤ v ∧ v ≤ 2147483647 then some (leBytes4 (v % 4294967296).toNat)
  else none

/-- `struct.pack` of a run of `B` fields (used for the 12 colour bytes). -/
def packU8s (l : List Nat) : Option (List Nat) :=
  if l.all (fun x => x ≤ 255) then some l else none

/-- `struct.unpack` of an `H` field from its two little-endian bytes. -/
def readU16v (b0 b1 : Nat) : Nat := b0 + 256 * b1

/-- `struct.unpack` of an `I` field from its four little-endian bytes. -/
def readU32v (b0 b1 b2 b3 : Nat) : Nat :=
  b0 + 256 * b1 + 65536 * b2 + 16777216 * b3

/-- `struct.unpack` of an `h` field (two's complement). -/
def readI16v (b0 b1 : Nat) : Int :=
  if readU16v b0 b1 < 32768 then (readU16v b0 b1 : Int)
  else (readU16v b0 b1 : Int) - 65536

/-- `struct.unpack` of an `i` field (two's complement). -/
def readI32v (b0 b1 b2 b3 : Nat) : Int :=
  if readU32v b0 b1 b2 b3 < 2147483648 then (readU32v b0 b1 b2 b3 : Int)
  else (readU32v b0 b1 b2 b3 : Int) - 4294967296

/-- Python `x & (m - 1)` for a power of two `m`, on an arbitrary int:
equal to `x mod m`, always non-negative. -/
def maskN (m : Nat) (x : Int) : Nat := (x % (m : Int)).toNat

/-! ## the packet data model

One constructor per concrete `RadioPacket` subclass.  The packet type tag of
the five structured variants is fixed by the class (`PACKET_TYPE`), so only
`raw` carries it. -/

inductive RadioPacket where
  | raw (packet_type : Nat) (payload : List Nat) (time serial : Int)
  | botCommand (command_type : Nat)
      (motor1 motor2 motor3 motor4 duration servo1 servo2 data1 time serial : Int)
  | botStatus (buttons : Nat) (accel_x accel_y accel_z time serial : Int)
  | display (tone duration image head_lamp_left head_lamp_right neo_left neo_right : Nat)
      (time serial : Int)
  | hereIAm (class_id group channel flags image : Nat) (time serial : Int)
  | joystick (x y buttons : Nat) (accel_x accel_y accel_z time serial : Int)
  deriving DecidableEq, Repr

/-- `PayloadType` / `PACKET_TYPE` of each variant (`raw` stores its own). -/
def RadioPacket.packetTypeOf : RadioPacket → Nat
  | .raw t _ _ _ => t
  | .botCommand .. => 20
  | .botStatus .. => 21
  | .display .. => 11
  | .hereIAm .. => 10
  | .joystick .. => 30

/-- The `time` header field of a packet. -/
def RadioPacket.timeOf : RadioPacket → Int
  | .raw _ _ t _ => t
  | .botCommand _ _ _ _ _ _ _ _ _ t _ => t
  | .botStatus _ _ _ _ t _ => t
  | .display _ _ _ _ _ _ _ t _ => t
  | .hereIAm _ _ _ _ _ t _ => t
  | .joystick _ _ _ _ _ _ t _ => t

/-- The `serial` header field of a packet. -/
def RadioPacket.serialOf : RadioPacket → Int
  | .raw _ _ _ s => s
  | .botCommand _ _ _ _ _ _ _ _ _ _ s => s
  | .botStatus _ _ _ _ _ s => s
  | .display _ _ _ _ _ _ _ _ s => s
  | .hereIAm _ _ _ _ _ _ s => s
  | .joystick _ _ _ _ _ _ _ s => s

/-! ## constructors (`__init__` keyword paths)

Unsigned fields are masked (`int(x) & 0xFF` and friends); signed fields and
`time`/`serial` are stored unmasked. -/

/-- `RawRadioPacket.__init__` (`packet_type & 0xFF`, payload kept as bytes). -/
def RawRadioPacket.init (packet_type : Int) (payload : List Nat)
    (time serial : Int) : RadioPacket :=
  .raw (maskN 256 packet_type) payload time serial

/-- `BotCommandPacket.__init__`: only `command_type` is masked. -/
def BotCommandPacket.init
    (command_type motor1 motor2 motor3 motor4 duration servo1 servo2 data1
      time serial : Int) : RadioPacket :=
  .botCommand (maskN 256 command_type) motor1 motor2 motor3 motor4 duration
    servo1 servo2 data1 time serial

/-- `BotStatusPacket.__init__`: only `buttons` is masked. -/
def BotStatusPacket.init (buttons accel_x accel_y accel_z time serial : Int) :
    RadioPacket :=
  .botStatus (maskN 256 buttons) accel_x accel_y accel_z time serial

/-- `DisplayPacket.__init__`: every field is masked to its width. -/
def DisplayPacket.init
    (tone duration image head_lamp_left head_lamp_right neo_left neo_right
      time serial : Int) : RadioPacket :=
  .display (maskN 256 tone) (maskN 256 duration) (maskN 4294967296 image)
    (maskN 16777216 head_lamp_left) (maskN 16777216 head_lamp_right)
    (maskN 16777216 neo_left) (maskN 16777216 neo_right) time serial

/-- `HereIAmPacket.__init__`: every field is masked to its width. -/
def HereIAmPacket.init (class_id group channel flags image time serial : Int) :
    RadioPacket :=
  .hereIAm (maskN 256 class_id) (maskN 65536 group) (maskN 65536 channel)
    (maskN 65536 flags) (maskN 4294967296 image) time serial

/-- `JoystickPacket.__init__`: `x`, `y`, `buttons` masked, accelerations not. -/
def JoystickPacket.init (x y buttons accel_x accel_y accel_z time serial : Int) :
    RadioPacket :=
  .joystick (maskN 65536 x) (maskN 65536 y) (maskN 256 buttons) accel_x accel_y
    accel_z time serial

/-! ## colour packing -/

/-- `_join_color`: `((red & 0xFF) << 16) | ((green & 0xFF) << 8) | (blue & 0xFF)`;
the shifted masked bytes occupy disjoint bit ranges, so the bitwise ors are
plain addition. -/
def join_color (red green blue : Nat) : Nat :=
  (red % 256) * 65536 + (green % 256) * 256 + blue % 256

/-- `_split_color`: `value &= 0xFFFFFF`, then the three bytes, high to low
(`>> 16` and `>> 8` are division by 65536 and 256). -/
def split_color (value : Nat) : Nat × Nat × Nat :=
  let v := value % 16777216
  (v / 65536 % 256, v / 256 % 256, v % 256)

/-- The 12 colour bytes of `DisplayPacket.payload_bytes` (four split colours). -/
def colorBytes (a b c d : Nat) : List Nat :=
  let f := fun v => [(split_color v).1, (split_color v).2.1, (split_color v).2.2]
  f a ++ f b ++ f c ++ f d

/-! ## encoding (`payload_bytes` / `to_bytes`) -/

/-- `RadioPacket.HEADER_STRUCT.pack(packet_type, time, serial)`. -/
def packHeader (packet_type : Nat) (time serial : Int) : Option (List Nat) :=
  (packU8 packet_type).bind fun a =>
  (packI32 time).bind fun b =>
  (packI32 serial).bind fun c => some (a ++ b ++ c)

/-- The per-variant `payload_bytes` methods.  Fields that the source re-masks
at pack time (`self.x & MASK`) appear here with `% width`. -/
def RadioPacket.payload_bytes : RadioPacket → Option (List Nat)
  | .raw _ payload _ _ => some payload
  | .botCommand ct m1 m2 m3 m4 du s1 s2 d1 _ _ =>
      (packU8 (ct % 256)).bind fun a =>
      (packI16 m1).bind fun b1 =>
      (packI16 m2).bind fun b2 =>
      (packI16 m3).bind fun b3 =>
      (packI16 m4).bind fun b4 =>
      (packI16 du).bind fun b5 =>
      (packI16 s1).bind fun b6 =>
      (packI16 s2).bind fun b7 =>
      (packI32 d1).bind fun c =>
        some (a ++ b1 ++ b2 ++ b3 ++ b4 ++ b5 ++ b6 ++ b7 ++ c)
  | .botStatus bt ax ay az _ _ =>
      (packU8 (bt % 256)).bind fun a =>
      (packI16 ax).bind fun b1 =>
      (packI16 ay).bind fun b2 =>
      (packI16 az).bind fun b3 => some (a ++ b1 ++ b2 ++ b3)
  | .display tone du im hll hlr nl nr _ _ =>
      (packU8 (tone % 256)).bind fun a =>
      (packU8 (du % 256)).bind fun b =>
      (packU32 (im % 4294967296)).bind fun c =>
      (packU8s (colorBytes hll hlr nl nr)).bind fun d => some (a ++ b ++ c ++ d)
  | .hereIAm cid g ch f im _ _ =>
      (packU8 (cid % 256)).bind fun a =>
      (packU16 (g % 65536)).bind fun b =>
      (packU16 (ch % 65536)).bind fun c =>
      (packU16 (f % 65536)).bind fun d =>
      (packU32 (im % 4294967296)).bind fun e => some (a ++ b ++ c ++ d ++ e)
  | .joystick x y bt ax ay az _ _ =>
      (packU16 (x % 65536)).bind fun a =>
      (packU16 (y % 65536)).bind fun b =>
      (packU8 (bt % 256)).bind fun c =>
      (packI16 ax).bind fun d =>
      (packI16 ay).bind fun e =>
      (packI16 az).bind fun f => some (a ++ b ++ c ++ d ++ e ++ f)

/-- `RadioPacket.to_bytes`: packed header followed by the payload bytes. -/
def RadioPacket.to_bytes (p : RadioPacket) : Option (List Nat) :=
  (packHeader p.packetTypeOf p.timeOf p.serialOf).bind fun h =>
  p.payload_bytes.bind fun pl => some (h ++ pl)

/-! ## decoding (`from_bytes` / `parse_packet`) -/

/-- `BotCommandPacket.from_bytes` = `BotCommandPacket(data)`: header check,
type-tag check, exact-size check, then unpack `<Bhhhhhhhi` at offset 9. -/
def BotCommandPacket.from_bytes (data : List Nat) : Except PyErr RadioPacket :=
  if data.length < HEADER_SIZE then .error (.headerShort HEADER_SIZE data.length)
  else if data.getD 0 0 ≠ 20 then .error (.notVariant "BotCommand")
  else if data.length ≠ BotCommandPacket.TOTAL_SIZE then
    .error (.wrongTotal "BotCommand" BotCommandPacket.TOTAL_SIZE data.length)
  else
    .ok (BotCommandPacket.init
      (data.getD 9 0)
      (readI16v (data.getD 10 0) (data.getD 11 0))
      (readI16v (data.getD 12 0) (data.getD 13 0))
      (readI16v (data.getD 14 0) (data.getD 15 0))
      (readI16v (data.getD 16 0) (data.getD 17 0))
      (readI16v (data.getD 18 0) (data.getD 19 0))
      (readI16v (data.getD 20 0) (data.getD 21 0))
      (readI16v (data.getD 22 0) (data.getD 23 0))
      (readI32v (data.getD 24 0) (data.getD 25 0) (data.getD 26 0) (data.getD 27 0))
      (readI32v (data.getD 1 0) (data.getD 2 0) (data.getD 3 0) (data.getD 4 0))
      (readI32v (data.getD 5 0) (data.getD 6 0) (data.getD 7 0) (data.getD 8 0)))

/-- `BotStatusPacket.from_bytes`: unpack `<Bhhh` at offset 9. -/
def BotStatusPacket.from_bytes (data : List Nat) : Except PyErr RadioPacket :=
  if data.length < HEADER_SIZE then .error (.headerShort HEADER_SIZE data.length)
  else if data.getD 0 0 ≠ 21 then .error (.notVariant "BotStatus")
  else if data.length ≠ BotStatusPacket.TOTAL_SIZE then
    .error (.wrongTotal "BotStatus" BotStatusPacket.TOTAL_SIZE data.length)
  else
    .ok (BotStatusPacket.init
      (data.getD 9 0)
      (readI16v (data.getD 10 0) (data.getD 11 0))
      (readI16v (data.getD 12 0) (data.getD 13 0))
      (readI16v (data.getD 14 0) (data.getD 15 0))
      (readI32v (data.getD 1 0) (data.getD 2 0) (data.getD 3 0) (data.getD 4 0))
      (readI32v (data.getD 5 0) (data.getD 6 0) (data.getD 7 0) (data.getD 8 0)))

/-- `DisplayPacket.from_bytes`: unpack `<BBI12B` at offset 9 and join the
four colour byte triples. -/
def DisplayPacket.from_bytes (data : List Nat) : Except PyErr RadioPacket :=
  if data.length < HEADER_SIZE then .error (.headerShort HEADER_SIZE data.length)
  else if data.getD 0 0 ≠ 11 then .error (.notVariant "Display")
  else if data.length ≠ DisplayPacket.TOTAL_SIZE then
    .error (.wrongTotal "Display" DisplayPacket.TOTAL_SIZE data.length)
  else
    .ok (DisplayPacket.init
      (data.getD 9 0)
      (data.getD 10 0)
      (readU32v (data.getD 11 0) (data.getD 12 0) (data.getD 13 0) (data.getD 14 0))
      (join_color (data.getD 15 0) (data.getD 16 0) (data.getD 17 0))
      (join_color (data.getD 18 0) (data.getD 19 0) (data.getD 20 0))
      (join_color (data.getD 21 0) (data.getD 22 0) (data.getD 23 0))
      (join_color (data.getD 24 0) (data.getD 25 0) (data.getD 26 0))
      (readI32v (data.getD 1 0) (data.getD 2 0) (data.getD 3 0) (data.getD 4 0))
      (readI32v (data.getD 5 0) (data.getD 6 0) (data.getD 7 0) (data.getD 8 0)))

/-- `HereIAmPacket.from_bytes`: unpack `<BHHHI` at offset 9. -/
def HereIAmPacket.from_bytes (data : List Nat) : Except PyErr RadioPacket :=
  if data.length < HEADER_SIZE then .error (.headerShort HEADER_SIZE data.length)
  else if data.getD 0 0 ≠ 10 then .error (.notVariant "HereIAm")
  else if data.length ≠ HereIAmPacket.TOTAL_SIZE then
    .error (.wrongTotal "HereIAm" HereIAmPacket.TOTAL_SIZE data.length)
  else
    .ok (HereIAmPacket.init
      (data.getD 9 0)
      (readU16v (data.getD 10 0) (data.getD 11 0))
      (readU16v (data.getD 12 0) (data.getD 13 0))
      (readU16v (data.getD 14 0) (data.getD 15 0))
      (readU32v (data.getD 16 0) (data.getD 17 0) (data.getD 18 0) (data.getD 19 0))
      (readI32v (data.getD 1 0) (data.getD 2 0) (data.getD 3 0) (data.getD 4 0))
      (readI32v (data.getD 5 0) (data.getD 6 0) (data.getD 7 0) (data.getD 8 0)))

/-- `JoystickPacket.from_bytes`: unpack `<HHBhhh` at offset 9. -/
def JoystickPacket.from_bytes (data : List Nat) : Except PyErr RadioPacket :=
  if data.length < HEADER_SIZE then .error (.headerShort HEADER_SIZE data.length)
  else if data.getD 0 0 ≠ 30 then .error (.notVariant "Joystick")
  else if data.length ≠ JoystickPacket.TOTAL_SIZE then
    .error (.wrongTotal "Joystick" JoystickPacket.TOTAL_SIZE data.length)
  else
    .ok (JoystickPacket.init
      (readU16v (data.getD 9 0) (data.getD 10 0))
      (readU16v (data.getD 11 0) (data.getD 12 0))
      (data.getD 13 0)
      (readI16v (data.getD 14 0) (data.getD 15 0))
      (readI16v (data.getD 16 0) (data.getD 17 0))
      (readI16v (data.getD 18 0) (data.getD 19 0))
      (readI32v (data.getD 1 0) (data.getD 2 0) (data.getD 3 0) (data.getD 4 0))
      (readI32v (data.getD 5 0) (data.getD 6 0) (data.getD 7 0) (data.getD 8 0)))

/-- `RawRadioPacket.from_bytes`: header check, payload = everything after the
header. -/
def RawRadioPacket.from_bytes (data : List Nat) : Except PyErr RadioPacket :=
  if data.length < HEADER_SIZE then .error (.headerShort HEADER_SIZE data.length)
  else
    .ok (RawRadioPacket.init (data.getD 0 0) (data.drop HEADER_SIZE)
      (readI32v (data.getD 1 0) (data.getD 2 0) (data.getD 3 0) (data.getD 4 0))
      (readI32v (data.getD 5 0) (data.getD 6 0) (data.getD 7 0) (data.getD 8 0)))

/-- The `PACKET_CLASSES` registry, as tag to `TOTAL_SIZE`; `none` for tags
with no registered class (the raw fallback). -/
def totalSizeOfTag (tag : Nat) : Option Nat :=
  if tag = 20 then some BotCommandPacket.TOTAL_SIZE
  else if tag = 21 then some BotStatusPacket.TOTAL_SIZE
  else if tag = 11 then some DisplayPacket.TOTAL_SIZE
  else if tag = 10 then some HereIAmPacket.TOTAL_SIZE
  else if tag = 30 then some JoystickPacket.TOTAL_SIZE
  else none

/-- The `PACKET_CLASSES` registry, as tag to `from_bytes`. -/
def classFromBytes (tag : Nat) (data : List Nat) : Except PyErr RadioPacket :=
  if tag = 20 then BotCommandPacket.from_bytes data
  else if tag = 21 then BotStatusPacket.from_bytes data
  else if tag = 11 then DisplayPacket.from_bytes data
  else if tag = 10 then HereIAmPacket.from_bytes data
  else if tag = 30 then JoystickPacket.from_bytes data
  else RawRadioPacket.from_bytes data

/-- `parse_packet`: header-length check, registry lookup on the first byte,
fixed-size check and truncation for known tags, raw fallback otherwise. -/
def parse_packet (data : List Nat) : Except PyErr RadioPacket :=
  if data.length < HEADER_SIZE then .error .tooShortToDecode
  else
    let tag := data.getD 0 0
    match totalSizeOfTag tag with
    | some expected =>
        if data.length < expected then .error (.shortForClass expected data.length)
        else classFromBytes tag (data.take expected)
    | none => RawRadioPacket.from_bytes data

/-! ## peer directory (`peerdb.py`) -/

/-- `PeerRecord`: frozen dataclass snapshot of a HereIAm packet. -/
structure PeerRecord where
  serial : Int
  class_id : Nat
  group : Nat
  channel : Nat
  flags : Nat
  image : Nat
  time : Int
  deriving DecidableEq, Repr

/-- `PeerRecord.from_packet`: reads `serial`, `class_id`, `group`, `channel`,
`flags`, `image`, `time` off the argument.  Only `HereIAmPacket` instances
carry `class_id` and the other announce fields; any other packet raises
`AttributeError` at the first missing attribute. -/
def PeerRecord.from_packet (p : RadioPacket) : Except PyErr PeerRecord :=
  match p with
  | .hereIAm cid g ch f im tm sr =>
      .ok { serial := sr, class_id := cid, group := g, channel := ch,
            flags := f, image := im, time := tm }
  | _ => .error .attributeError

/-- `PeerDB._peers`: a Python dict from serial to record, i.e. an
insertion-ordered association list with unique keys. -/
abbrev PeerDB := List (Int × PeerRecord)

/-- Python dict assignment `d[k] = v`: replace in place if the key exists,
else append. -/
def dbInsert (db : PeerDB) (k : Int) (v : PeerRecord) : PeerDB :=
  match db with
  | [] => [(k, v)]
  | kv :: rest => if kv.1 = k then (k, v) :: rest else kv :: dbInsert rest k v

/-- `PeerDB.add`: derive a record (which can raise) and upsert it by serial,
returning the stored record and the new dictionary state. -/
def PeerDB.add (db : PeerDB) (p : RadioPacket) : Except PyErr (PeerRecord × PeerDB) :=
  match PeerRecord.from_packet p with
  | .ok r => .ok (r, dbInsert db r.serial r)
  | .error e => .error e

/-- `PeerDB.clear`. -/
def PeerDB.clear (_db : PeerDB) : PeerDB := []

/-- `PeerDB.find_by_serial`: dict `get`, i.e. lookup of the unique key. -/
def PeerDB.find_by_serial (db : PeerDB) (s : Int) : Option PeerRecord :=
  match db with
  | [] => none
  | kv :: rest => if kv.1 = s then some kv.2 else PeerDB.find_by_serial rest s

/-- `len(PeerDB)`: the number of dict entries. -/
def PeerDB.size (db : PeerDB) : Nat := db.length

/-! ## serial transport line classification (`rrserial.py`, `RRSerial.iter`)

The per-line part of the read loop, on the decoded text of one line. -/

/-- Payload of one `(command, data)` event: bytes for `"r"`, text otherwise. -/
inductive LineData where
  | bytes (b : List Nat)
  | text (s : String)
  deriving DecidableEq, Repr

/-- Python `str.strip()` whitespace (the ASCII part). -/
def isPySpace (c : Char) : Bool :=
  c = ' ' || c = '\t' || c = '\n' || c = '\r' || c = Char.ofNat 11 || c = Char.ofNat 12

/-- Python `str.strip()`: drop leading and trailing whitespace. -/
def pyStrip (l : List Char) : List Char :=
  ((l.dropWhile isPySpace).reverse.dropWhile isPySpace).reverse

/-- `line.rstrip("\r\n")`: drop trailing carriage returns and newlines. -/
def rstripCRLF (l : List Char) : List Char :=
  (l.reverse.dropWhile (fun c => c = '\r' || c = '\n')).reverse

/-- `text.partition(":")` restricted to the interesting parts: the text
before the first colon and the text after it, or `none` when there is no
colon. -/
def splitAtColon : List Char → Option (List Char × List Char)
  | [] => none
  | c :: rest =>
      if c = ':' then some ([], rest)
      else
        match splitAtColon rest with
        | some (a, b) => some (c :: a, b)
        | none => none

/-- The value of one hexadecimal digit, `none` for non-hex characters. -/
def hexDigitVal (c : Char) : Option Nat :=
  if '0' ≤ c ∧ c ≤ '9' then some (c.toNat - 48)
  else if 'a' ≤ c ∧ c ≤ 'f' then some (c.toNat - 87)
  else if 'A' ≤ c ∧ c ≤ 'F' then some (c.toNat - 55)
  else none

/-- `bytes.fromhex` on space-free text: pairs of hex digits, `none` (a
`ValueError`) on an odd count or a non-hex character. -/
def fromHexChars : List Char → Option (List Nat)
  | [] => some []
  | [_] => none
  | c1 :: c2 :: rest =>
      match hexDigitVal c1, hexDigitVal c2, fromHexChars rest with
      | some hi, some lo, some tl => some ((16 * hi + lo) :: tl)
      | _, _, _ => none

/-- The classification of one non-empty line body (`RRSerial.iter`, the part
after the emptiness check): partition at the first colon, lowercase and strip
the command (empty means `"log"`), hex-decode `"r"` payloads swallowing
`ValueError` into empty bytes. -/
def classifyChars (text : List Char) : String × LineData :=
  match splitAtColon text with
  | none => ("log", .text (String.mk text))
  | some (pre, rest) =>
      let rawCommand := pyStrip pre
      let payload := pyStrip rest
      let command :=
        if rawCommand.map Char.toLower = [] then "log"
        else String.mk (rawCommand.map Char.toLower)
      if command = "r" then
        let cleaned := payload.filter (fun c => c ≠ ' ')
        match fromHexChars cleaned with
        | some bs => (command, .bytes bs)
        | none => (command, .bytes [])
      else (command, .text (String.mk payload))

/-- One iteration step of `RRSerial.iter` on a decoded line: strip the line
terminator, skip the line if empty, otherwise yield its classification. -/
def processLine (line : String) : Option (String × LineData) :=
  let text := rstripCRLF line.data
  if text = [] then none else some (classifyChars text)

/-! ## operation sequences over the peer directory -/

/-- One `PeerDB` operation. -/
inductive POp where
  | add (p : RadioPacket)
  | clear
  deriving Repr

/-- Apply one operation; a raising `add` leaves the dictionary unchanged. -/
def applyOp (db : PeerDB) : POp → PeerDB
  | .add p =>
      match PeerDB.add db p with
      | .ok (_, db2) => db2
      | .error _ => db
  | .clear => PeerDB.clear db

/-- Run a sequence of operations from the empty directory. -/
def runOps (ops : List POp) : PeerDB := ops.foldl applyOp []

/-- The packets handed to `add` since the most recent `clear` (all of them,
whether or not the add raised). -/
def addsSinceClear (ops : List POp) : List RadioPacket :=
  ops.foldl
    (fun acc op =>
      match op with
      | .add p => acc ++ [p]
      | .clear => []) []

/-- Spec-side: the record an Announce packet with serial `s` would produce,
`none` for other packets or other serials. -/
def announceRec (s : Int) (p : RadioPacket) : Option PeerRecord :=
  match PeerRecord.from_packet p with
  | .ok r => if r.serial = s then some r else none
  | .error _ => none

/-- Spec-side: the record of the most recently added Announce packet carrying
serial `s` since the last clear. -/
def specLastAnnounce (ops : List POp) (s : Int) : Option PeerRecord :=
  ((addsSinceClear ops).filterMap (announceRec s)).getLast?

/-- Spec-side: the serial announced by a packet, if it is an Announce. -/
def announceSerial (p : RadioPacket) : Option Int :=
  (PeerRecord.from_packet p).toOption.map PeerRecord.serial

/-- Spec-side: the number of distinct serials added since the last clear. -/
def distinctSerials (ops : List POp) : Nat :=
  ((addsSinceClear ops).filterMap announceSerial).toFinset.card

example : processLine "r: 0a1b" = some ("r", .bytes [10, 27]) := by decide
example : processLine "hello world" = some ("log", .text "hello world") := by decide
example : processLine "status: armed" = some ("status", .text "armed") := by decide
example : processLine "r: zz" = some ("r", .bytes []) := by decide
example : processLine " : hi" = some ("log", .text "hi") := by decide
example : processLine "R: 0A" = some ("r", .bytes [10]) := by decide
example : processLine "" = none := by decide
example :
    runOps [.add (.hereIAm 3 7 1 0 42 1000 99), .add (.hereIAm 4 7 1 0 2 1001 99)]
      = [(99, ⟨99, 4, 7, 1, 0, 2, 1001⟩)] := by decide
example :
    (runOps [.add (.hereIAm 3 7 1 0 42 1000 99), .add (.hereIAm 4 7 1 0 2 1001 98)]).size
      = 2 := by decide
example :
    specLastAnnounce [.add (.hereIAm 3 7 1 0 42 1000 99), .add (.hereIAm 4 7 1 0 2 1001 99)] 99
      = some ⟨99, 4, 7, 1, 0, 2, 1001⟩ := by decide

/-! ## basic facts about the primitives -/

@[simp] lemma HEADER_SIZE_eq : HEADER_SIZE = 9 := rfl
@[simp] lemma botCommand_total_eq : BotCommandPacket.TOTAL_SIZE = 28 := rfl
@[simp] lemma botStatus_total_eq : BotStatusPacket.TOTAL_SIZE = 16 := rfl
@[simp] lemma display_total_eq : DisplayPacket.TOTAL_SIZE = 27 := rfl
@[simp] lemma hereIAm_total_eq : HereIAmPacket.TOTAL_SIZE = 20 := rfl
@[simp] lemma joystick_total_eq : JoystickPacket.TOTAL_SIZE = 20 := rfl

lemma packU8_of_lt {v : Nat} (h : v < 256) : packU8 v = some [v] := by
  unfold packU8; rw [if_pos (by omega)]

lemma packU16_of_lt {v : Nat} (h : v < 65536) : packU16 v = some (leBytes2 v) := by
  unfold packU16; rw [if_pos (by omega)]

lemma packU32_of_lt {v : Nat} (h : v < 4294967296) : packU32 v = some (leBytes4 v) := by
  unfold packU32; rw [if_pos (by omega)]

lemma packI16_of_range {v : Int} (h1 : -32768 ≤ v) (h2 : v ≤ 32767) :
    packI16 v = some (leBytes2 (v % 65536).toNat) := by
  unfold packI16; rw [if_pos ⟨h1, h2⟩]

lemma packI32_of_range {v : Int} (h1 : -2147483648 ≤ v) (h2 : v ≤ 2147483647) :
    packI32 v = some (leBytes4 (v % 4294967296).toNat) := by
  unfold packI32; rw [if_pos ⟨h1, h2⟩]

lemma packI16_out {v : Int} (h : v < -32768 ∨ 32767 < v) : packI16 v = none := by
  unfold packI16; rw [if_neg (by omega)]

lemma mod256_le (x : Nat) : x % 256 ≤ 255 := by omega

lemma packU8s_colors (a b c d : Nat) :
    packU8s (colorBytes a b c d) = some (colorBytes a b c d) := by
  unfold packU8s
  rw [if_pos (by simp [colorBytes, split_color, mod256_le])]

lemma readI16_round (v : Int) (h1 : -32768 ≤ v) (h2 : v ≤ 32767) :
    readI16v ((v % 65536).toNat % 256) ((v % 65536).toNat / 256 % 256) = v := by
  unfold readI16v readU16v; split_ifs <;> omega

lemma readI32_round (v : Int) (h1 : -2147483648 ≤ v) (h2 : v ≤ 2147483647) :
    readI32v ((v % 4294967296).toNat % 256) ((v % 4294967296).toNat / 256 % 256)
      ((v % 4294967296).toNat / 65536 % 256) ((v % 4294967296).toNat / 16777216 % 256)
      = v := by
  unfold readI32v readU32v; split_ifs <;> omega

/-- `parse_packet` on a buffer of exactly the registered size dispatches to
the class decoder with the whole buffer. -/
lemma parse_packet_eq_class (data : List Nat) (T : Nat)
    (h : totalSizeOfTag (data.getD 0 0) = some T) (hl : data.length = T)
    (h9 : HEADER_SIZE ≤ data.length) :
    parse_packet data = classFromBytes (data.getD 0 0) data := by
  simp only [parse_packet, h]
  rw [if_neg (by omega), if_neg (by omega), List.take_of_length_le (by omega)]

/-! ## per-variant round trips (encode then decode) -/

lemma round_hereIAm (cid g ch f im : Nat) (tm sr : Int)
    (h1 : cid < 256) (h2 : g < 65536) (h3 : ch < 65536) (h4 : f < 65536)
    (h5 : im < 4294967296) (h6 : -2147483648 ≤ tm) (h7 : tm ≤ 2147483647)
    (h8 : -2147483648 ≤ sr) (h9 : sr ≤ 2147483647) :
    ∃ bs, (RadioPacket.hereIAm cid g ch f im tm sr).to_bytes = some bs ∧
      parse_packet bs = .ok (.hereIAm cid g ch f im tm sr) := by
  refine ⟨([10] ++ leBytes4 (tm % 4294967296).toNat ++ leBytes4 (sr % 4294967296).toNat) ++
    ([cid] ++ leBytes2 g ++ leBytes2 ch ++ leBytes2 f ++ leBytes4 im), ?_, ?_⟩
  all_goals have e1 : cid % 256 = cid := Nat.mod_eq_of_lt h1
  all_goals have e2 : g % 65536 = g := Nat.mod_eq_of_lt h2
  all_goals have e3 : ch % 65536 = ch := Nat.mod_eq_of_lt h3
  all_goals have e4 : f % 65536 = f := Nat.mod_eq_of_lt h4
  all_goals have e5 : im % 4294967296 = im := Nat.mod_eq_of_lt h5
  all_goals have rtm := readI32_round tm h6 h7
  all_goals have rsr := readI32_round sr h8 h9
  · simp only [RadioPacket.to_bytes, RadioPacket.packetTypeOf, RadioPacket.timeOf,
      RadioPacket.serialOf, packHeader, RadioPacket.payload_bytes, e1, e2, e3, e4, e5,
      packU8_of_lt (show (10:Nat) < 256 by omega), packI32_of_range h6 h7,
      packI32_of_range h8 h9, packU8_of_lt h1, packU16_of_lt h2, packU16_of_lt h3,
      packU16_of_lt h4, packU32_of_lt h5, Option.some_bind']
  · simp only [leBytes2, leBytes4, List.cons_append, List.nil_append]
    rw [parse_packet_eq_class _ 20 (by rfl) (by simp) (by simp)]
    simp only [classFromBytes, HereIAmPacket.from_bytes, HereIAmPacket.init,
      List.length_cons, List.length_nil, List.getD_cons_succ, List.getD_cons_zero,
      Nat.reduceAdd, Nat.reduceLT, Nat.reduceEqDiff, eq_self_iff_true, ne_eq, reduceIte, not_true, not_false_iff,
      ite_false, ite_true, HEADER_SIZE_eq, hereIAm_total_eq, maskN, readU16v, readU32v,
      rtm, rsr, Nat.cast_ofNat, Except.ok.injEq, RadioPacket.hereIAm.injEq, and_true, true_and]
    omega

lemma round_botCommand (ct : Nat) (m1 m2 m3 m4 du s1 s2 d1 tm sr : Int)
    (h1 : ct < 256)
    (g1 : -32768 ≤ m1) (g1' : m1 ≤ 32767) (g2 : -32768 ≤ m2) (g2' : m2 ≤ 32767)
    (g3 : -32768 ≤ m3) (g3' : m3 ≤ 32767) (g4 : -32768 ≤ m4) (g4' : m4 ≤ 32767)
    (g5 : -32768 ≤ du) (g5' : du ≤ 32767) (g6 : -32768 ≤ s1) (g6' : s1 ≤ 32767)
    (g7 : -32768 ≤ s2) (g7' : s2 ≤ 32767)
    (g8 : -2147483648 ≤ d1) (g8' : d1 ≤ 2147483647)
    (h6 : -2147483648 ≤ tm) (h7 : tm ≤ 2147483647)
    (h8 : -2147483648 ≤ sr) (h9 : sr ≤ 2147483647) :
    ∃ bs, (RadioPacket.botCommand ct m1 m2 m3 m4 du s1 s2 d1 tm sr).to_bytes = some bs ∧
      parse_packet bs = .ok (.botCommand ct m1 m2 m3 m4 du s1 s2 d1 tm sr) := by
  refine ⟨([20] ++ leBytes4 (tm % 4294967296).toNat ++ leBytes4 (sr % 4294967296).toNat) ++
    ([ct] ++ leBytes2 (m1 % 65536).toNat ++ leBytes2 (m2 % 65536).toNat ++
      leBytes2 (m3 % 65536).toNat ++ leBytes2 (m4 % 65536).toNat ++
      leBytes2 (du % 65536).toNat ++ leBytes2 (s1 % 65536).toNat ++
      leBytes2 (s2 % 65536).toNat ++ leBytes4 (d1 % 4294967296).toNat), ?_, ?_⟩
  all_goals have e1 : ct % 256 = ct := Nat.mod_eq_of_lt h1
  all_goals have rtm := readI32_round tm h6 h7
  all_goals have rsr := readI32_round sr h8 h9
  all_goals have rd1 := readI32_round d1 g8 g8'
  all_goals have r1 := readI16_round m1 g1 g1'
  all_goals have r2 := readI16_round m2 g2 g2'
  all_goals have r3 := readI16_round m3 g3 g3'
  all_goals have r4 := readI16_round m4 g4 g4'
  all_goals have r5 := readI16_round du g5 g5'
  all_goals have r6 := readI16_round s1 g6 g6'
  all_goals have r7 := readI16_round s2 g7 g7'
  · simp only [RadioPacket.to_bytes, RadioPacket.packetTypeOf, RadioPacket.timeOf,
      RadioPacket.serialOf, packHeader, RadioPacket.payload_bytes, e1,
      packU8_of_lt (show (20:Nat) < 256 by omega), packI32_of_range h6 h7,
      packI32_of_range h8 h9, packU8_of_lt h1,
      packI16_of_range g1 g1', packI16_of_range g2 g2', packI16_of_range g3 g3',
      packI16_of_range g4 g4', packI16_of_range g5 g5', packI16_of_range g6 g6',
      packI16_of_range g7 g7', packI32_of_range g8 g8', Option.some_bind']
  · simp only [leBytes2, leBytes4, List.cons_append, List.nil_append]
    rw [parse_packet_eq_class _ 28 (by rfl) (by simp) (by simp)]
    simp only [classFromBytes, BotCommandPacket.from_bytes, BotCommandPacket.init,
      List.length_cons, List.length_nil, List.getD_cons_succ, List.getD_cons_zero,
      Nat.reduceAdd, Nat.reduceLT, Nat.reduceEqDiff, eq_self_iff_true, ne_eq, reduceIte,
      not_true, not_false_iff, ite_false, ite_true, HEADER_SIZE_eq, botCommand_total_eq,
      maskN, rtm, rsr, rd1, r1, r2, r3, r4, r5, r6, r7, Nat.cast_ofNat,
      Except.ok.injEq, RadioPacket.botCommand.injEq, and_true, true_and]
    omega

lemma round_botStatus (bt : Nat) (ax ay az tm sr : Int)
    (h1 : bt < 256)
    (g1 : -32768 ≤ ax) (g1' : ax ≤ 32767) (g2 : -32768 ≤ ay) (g2' : ay ≤ 32767)
    (g3 : -32768 ≤ az) (g3' : az ≤ 32767)
    (h6 : -2147483648 ≤ tm) (h7 : tm ≤ 2147483647)
    (h8 : -2147483648 ≤ sr) (h9 : sr ≤ 2147483647) :
    ∃ bs, (RadioPacket.botStatus bt ax ay az tm sr).to_bytes = some bs ∧
      parse_packet bs = .ok (.botStatus bt ax ay az tm sr) := by
  refine ⟨([21] ++ leBytes4 (tm % 4294967296).toNat ++ leBytes4 (sr % 4294967296).toNat) ++
    ([bt] ++ leBytes2 (ax % 65536).toNat ++ leBytes2 (ay % 65536).toNat ++
      leBytes2 (az % 65536).toNat), ?_, ?_⟩
  all_goals have e1 : bt % 256 = bt := Nat.mod_eq_of_lt h1
  all_goals have rtm := readI32_round tm h6 h7
  all_goals have rsr := readI32_round sr h8 h9
  all_goals have r1 := readI16_round ax g1 g1'
  all_goals have r2 := readI16_round ay g2 g2'
  all_goals have r3 := readI16_round az g3 g3'
  · simp only [RadioPacket.to_bytes, RadioPacket.packetTypeOf, RadioPacket.timeOf,
      RadioPacket.serialOf, packHeader, RadioPacket.payload_bytes, e1,
      packU8_of_lt (show (21:Nat) < 256 by omega), packI32_of_range h6 h7,
      packI32_of_range h8 h9, packU8_of_lt h1,
      packI16_of_range g1 g1', packI16_of_range g2 g2', packI16_of_range g3 g3',
      Option.some_bind']
  · simp only [leBytes2, leBytes4, List.cons_append, List.nil_append]
    rw [parse_packet_eq_class _ 16 (by rfl) (by simp) (by simp)]
    simp only [classFromBytes, BotStatusPacket.from_bytes, BotStatusPacket.init,
      List.length_cons, List.length_nil, List.getD_cons_succ, List.getD_cons_zero,
      Nat.reduceAdd, Nat.reduceLT, Nat.reduceEqDiff, eq_self_iff_true, ne_eq, reduceIte,
      not_true, not_false_iff, ite_false, ite_true, HEADER_SIZE_eq, botStatus_total_eq,
      maskN, rtm, rsr, r1, r2, r3, Nat.cast_ofNat,
      Except.ok.injEq, RadioPacket.botStatus.injEq, and_true, true_and]
    omega

lemma round_joystick (x y bt : Nat) (ax ay az tm sr : Int)
    (hx : x < 65536) (hy : y < 65536) (h1 : bt < 256)
    (g1 : -32768 ≤ ax) (g1' : ax ≤ 32767) (g2 : -32768 ≤ ay) (g2' : ay ≤ 32767)
    (g3 : -32768 ≤ az) (g3' : az ≤ 32767)
    (h6 : -2147483648 ≤ tm) (h7 : tm ≤ 2147483647)
    (h8 : -2147483648 ≤ sr) (h9 : sr ≤ 2147483647) :
    ∃ bs, (RadioPacket.joystick x y bt ax ay az tm sr).to_bytes = some bs ∧
      parse_packet bs = .ok (.joystick x y bt ax ay az tm sr) := by
  refine ⟨([30] ++ leBytes4 (tm % 4294967296).toNat ++ leBytes4 (sr % 4294967296).toNat) ++
    (leBytes2 x ++ leBytes2 y ++ [bt] ++ leBytes2 (ax % 65536).toNat ++
      leBytes2 (ay % 65536).toNat ++ leBytes2 (az % 65536).toNat), ?_, ?_⟩
  all_goals have ex : x % 65536 = x := Nat.mod_eq_of_lt hx
  all_goals have ey : y % 65536 = y := Nat.mod_eq_of_lt hy
  all_goals have e1 : bt % 256 = bt := Nat.mod_eq_of_lt h1
  all_goals have rtm := readI32_round tm h6 h7
  all_goals have rsr := readI32_round sr h8 h9
  all_goals have r1 := readI16_round ax g1 g1'
  all_goals have r2 := readI16_round ay g2 g2'
  all_goals have r3 := readI16_round az g3 g3'
  · simp only [RadioPacket.to_bytes, RadioPacket.packetTypeOf, RadioPacket.timeOf,
      RadioPacket.serialOf, packHeader, RadioPacket.payload_bytes, ex, ey, e1,
      packU8_of_lt (show (30:Nat) < 256 by omega), packI32_of_range h6 h7,
      packI32_of_range h8 h9, packU8_of_lt h1, packU16_of_lt hx, packU16_of_lt hy,
      packI16_of_range g1 g1', packI16_of_range g2 g2', packI16_of_range g3 g3',
      Option.some_bind']
  · simp only [leBytes2, leBytes4, List.cons_append, List.nil_append]
    rw [parse_packet_eq_class _ 20 (by rfl) (by simp) (by simp)]
    simp only [classFromBytes, JoystickPacket.from_bytes, JoystickPacket.init,
      List.length_cons, List.length_nil, List.getD_cons_succ, List.getD_cons_zero,
      Nat.reduceAdd, Nat.reduceLT, Nat.reduceEqDiff, eq_self_iff_true, ne_eq, reduceIte,
      not_true, not_false_iff, ite_false, ite_true, HEADER_SIZE_eq, joystick_total_eq,
      maskN, readU16v, rtm, rsr, r1, r2, r3, Nat.cast_ofNat,
      Except.ok.injEq, RadioPacket.joystick.injEq, and_true, true_and]
    omega

lemma round_display (tone du im hll hlr nl nr : Nat) (tm sr : Int)
    (h1 : tone < 256) (h2 : du < 256) (h3 : im < 4294967296)
    (c1 : hll < 16777216) (c2 : hlr < 16777216) (c3 : nl < 16777216) (c4 : nr < 16777216)
    (h6 : -2147483648 ≤ tm) (h7 : tm ≤ 2147483647)
    (h8 : -2147483648 ≤ sr) (h9 : sr ≤ 2147483647) :
    ∃ bs, (RadioPacket.display tone du im hll hlr nl nr tm sr).to_bytes = some bs ∧
      parse_packet bs = .ok (.display tone du im hll hlr nl nr tm sr) := by
  refine ⟨([11] ++ leBytes4 (tm % 4294967296).toNat ++ leBytes4 (sr % 4294967296).toNat) ++
    ([tone] ++ [du] ++ leBytes4 im ++ colorBytes hll hlr nl nr), ?_, ?_⟩
  all_goals have e1 : tone % 256 = tone := Nat.mod_eq_of_lt h1
  all_goals have e2 : du % 256 = du := Nat.mod_eq_of_lt h2
  all_goals have e3 : im % 4294967296 = im := Nat.mod_eq_of_lt h3
  all_goals have ec1 : hll % 16777216 = hll := Nat.mod_eq_of_lt c1
  all_goals have ec2 : hlr % 16777216 = hlr := Nat.mod_eq_of_lt c2
  all_goals have ec3 : nl % 16777216 = nl := Nat.mod_eq_of_lt c3
  all_goals have ec4 : nr % 16777216 = nr := Nat.mod_eq_of_lt c4
  all_goals have rtm := readI32_round tm h6 h7
  all_goals have rsr := readI32_round sr h8 h9
  · simp only [RadioPacket.to_bytes, RadioPacket.packetTypeOf, RadioPacket.timeOf,
      RadioPacket.serialOf, packHeader, RadioPacket.payload_bytes, e1, e2, e3,
      packU8_of_lt (show (11:Nat) < 256 by omega), packI32_of_range h6 h7,
      packI32_of_range h8 h9, packU8_of_lt h1, packU8_of_lt h2, packU32_of_lt h3,
      packU8s_colors, Option.some_bind']
  · simp only [colorBytes, split_color, ec1, ec2, ec3, ec4]
    simp only [leBytes2, leBytes4, List.cons_append, List.nil_append]
    rw [parse_packet_eq_class _ 27 (by rfl) (by simp) (by simp)]
    simp only [classFromBytes, DisplayPacket.from_bytes, DisplayPacket.init,
      List.length_cons, List.length_nil, List.getD_cons_succ, List.getD_cons_zero,
      Nat.reduceAdd, Nat.reduceLT, Nat.reduceEqDiff, eq_self_iff_true, ne_eq, reduceIte,
      not_true, not_false_iff, ite_false, ite_true, HEADER_SIZE_eq, display_total_eq,
      maskN, readU32v, join_color, rtm, rsr, Nat.cast_ofNat,
      Except.ok.injEq, RadioPacket.display.injEq, and_true, true_and]
    omega

/-! ## byte-level pack-of-read round trips (decode then encode) -/

lemma packU8_mask (b0 : Nat) (h0 : b0 < 256) :
    packU8 (maskN 256 (b0 : Int)) = some [b0] := by
  have e : maskN 256 (b0 : Int) = b0 := by unfold maskN; omega
  rw [e, packU8_of_lt h0]

lemma packU8_maskRead (b0 : Nat) (h0 : b0 < 256) :
    packU8 (maskN 256 (b0 : Int) % 256) = some [b0] := by
  have e : maskN 256 (b0 : Int) % 256 = b0 := by unfold maskN; omega
  rw [e, packU8_of_lt h0]

lemma packU16_maskRead (b0 b1 : Nat) (h0 : b0 < 256) (h1 : b1 < 256) :
    packU16 (maskN 65536 ((readU16v b0 b1 : Nat) : Int) % 65536) = some [b0, b1] := by
  have e : maskN 65536 ((readU16v b0 b1 : Nat) : Int) % 65536 = readU16v b0 b1 := by
    unfold maskN readU16v; omega
  rw [e, packU16_of_lt (by unfold readU16v; omega)]
  simp only [leBytes2, readU16v, Option.some.injEq, List.cons.injEq, and_true]
  constructor <;> omega

lemma packU32_maskRead (b0 b1 b2 b3 : Nat)
    (h0 : b0 < 256) (h1 : b1 < 256) (h2 : b2 < 256) (h3 : b3 < 256) :
    packU32 (maskN 4294967296 ((readU32v b0 b1 b2 b3 : Nat) : Int) % 4294967296)
      = some [b0, b1, b2, b3] := by
  have e : maskN 4294967296 ((readU32v b0 b1 b2 b3 : Nat) : Int) % 4294967296
      = readU32v b0 b1 b2 b3 := by
    unfold maskN readU32v; omega
  rw [e, packU32_of_lt (by unfold readU32v; omega)]
  simp only [leBytes4, readU32v, Option.some.injEq, List.cons.injEq, and_true]
  refine ⟨by omega, by omega, by omega, by omega⟩

lemma readI16_range (b0 b1 : Nat) (h0 : b0 < 256) (h1 : b1 < 256) :
    -32768 ≤ readI16v b0 b1 ∧ readI16v b0 b1 ≤ 32767 := by
  unfold readI16v readU16v; split_ifs <;> omega

lemma packI16_read (b0 b1 : Nat) (h0 : b0 < 256) (h1 : b1 < 256) :
    packI16 (readI16v b0 b1) = some [b0, b1] := by
  rw [packI16_of_range (readI16_range b0 b1 h0 h1).1 (readI16_range b0 b1 h0 h1).2]
  unfold readI16v readU16v leBytes2
  split_ifs <;>
    simp only [Option.some.injEq, List.cons.injEq, and_true] <;> omega

lemma readI32_range (b0 b1 b2 b3 : Nat)
    (h0 : b0 < 256) (h1 : b1 < 256) (h2 : b2 < 256) (h3 : b3 < 256) :
    -2147483648 ≤ readI32v b0 b1 b2 b3 ∧ readI32v b0 b1 b2 b3 ≤ 2147483647 := by
  unfold readI32v readU32v; split_ifs <;> omega

lemma packI32_read (b0 b1 b2 b3 : Nat)
    (h0 : b0 < 256) (h1 : b1 < 256) (h2 : b2 < 256) (h3 : b3 < 256) :
    packI32 (readI32v b0 b1 b2 b3) = some [b0, b1, b2, b3] := by
  rw [packI32_of_range (readI32_range b0 b1 b2 b3 h0 h1 h2 h3).1
    (readI32_range b0 b1 b2 b3 h0 h1 h2 h3).2]
  unfold readI32v readU32v leBytes4
  split_ifs <;>
    simp only [Option.some.injEq, List.cons.injEq, and_true] <;> omega

lemma split_mask_join (b0 b1 b2 : Nat) (h0 : b0 < 256) (h1 : b1 < 256) (h2 : b2 < 256) :
    split_color (maskN 16777216 ((join_color b0 b1 b2 : Nat) : Int)) = (b0, b1, b2) := by
  unfold split_color maskN join_color
  simp only [Prod.mk.injEq]
  refine ⟨by omega, by omega, by omega⟩

/-! ## destructuring byte lists of known length -/

lemma exists_len16 (b : List Nat) (h : b.length = 16) :
    ∃ a0 a1 a2 a3 a4 a5 a6 a7 a8 a9 a10 a11 a12 a13 a14 a15,
      b = [a0, a1, a2, a3, a4, a5, a6, a7, a8, a9, a10, a11, a12, a13, a14, a15] := by
  rcases b with _ | ⟨a0, b⟩
  · simp only [List.length_cons, List.length_nil] at h; omega
  rcases b with _ | ⟨a1, b⟩
  · simp only [List.length_cons, List.length_nil] at h; omega
  rcases b with _ | ⟨a2, b⟩
  · simp only [List.length_cons, List.length_nil] at h; omega
  rcases b with _ | ⟨a3, b⟩
  · simp only [List.length_cons, List.length_nil] at h; omega
  rcases b with _ | ⟨a4, b⟩
  · simp only [List.length_cons, List.length_nil] at h; omega
  rcases b with _ | ⟨a5, b⟩
  · simp only [List.length_cons, List.length_nil] at h; omega
  rcases b with _ | ⟨a6, b⟩
  · simp only [List.length_cons, List.length_nil] at h; omega
  rcases b with _ | ⟨a7, b⟩
  · simp only [List.length_cons, List.length_nil] at h; omega
  rcases b with _ | ⟨a8, b⟩
  · simp only [List.length_cons, List.length_nil] at h; omega
  rcases b with _ | ⟨a9, b⟩
  · simp only [List.length_cons, List.length_nil] at h; omega
  rcases b with _ | ⟨a10, b⟩
  · simp only [List.length_cons, List.length_nil] at h; omega
  rcases b with _ | ⟨a11, b⟩
  · simp only [List.length_cons, List.length_nil] at h; omega
  rcases b with _ | ⟨a12, b⟩
  · simp only [List.length_cons, List.length_nil] at h; omega
  rcases b with _ | ⟨a13, b⟩
  · simp only [List.length_cons, List.length_nil] at h; omega
  rcases b with _ | ⟨a14, b⟩
  · simp only [List.length_cons, List.length_nil] at h; omega
  rcases b with _ | ⟨a15, b⟩
  · simp only [List.length_cons, List.length_nil] at h; omega
  rcases b with _ | ⟨a16, b⟩
  · exact ⟨a0, a1, a2, a3, a4, a5, a6, a7, a8, a9, a10, a11, a12, a13, a14, a15, rfl⟩
  · simp only [List.length_cons, List.length_nil] at h; omega

lemma exists_len20 (b : List Nat) (h : b.length = 20) :
    ∃ a0 a1 a2 a3 a4 a5 a6 a7 a8 a9 a10 a11 a12 a13 a14 a15 a16 a17 a18 a19,
      b = [a0, a1, a2, a3, a4, a5, a6, a7, a8, a9, a10, a11, a12, a13, a14, a15, a16, a17, a18, a19] := by
  rcases b with _ | ⟨a0, b⟩
  · simp only [List.length_cons, List.length_nil] at h; omega
  rcases b with _ | ⟨a1, b⟩
  · simp only [List.length_cons, List.length_nil] at h; omega
  rcases b with _ | ⟨a2, b⟩
  · simp only [List.length_cons, List.length_nil] at h; omega
  rcases b with _ | ⟨a3, b⟩
  · simp only [List.length_cons, List.length_nil] at h; omega
  rcases b with _ | ⟨a4, b⟩
  · simp only [List.length_cons, List.length_nil] at h; omega
  rcases b with _ | ⟨a5, b⟩
  · simp only [List.length_cons, List.length_nil] at h; omega
  rcases b with _ | ⟨a6, b⟩
  · simp only [List.length_cons, List.length_nil] at h; omega
  rcases b with _ | ⟨a7, b⟩
  · simp only [List.length_cons, List.length_nil] at h; omega
  rcases b with _ | ⟨a8, b⟩
  · simp only [List.length_cons, List.length_nil] at h; omega
  rcases b with _ | ⟨a9, b⟩
  · simp only [List.length_cons, List.length_nil] at h; omega
  rcases b with _ | ⟨a10, b⟩
  · simp only [List.length_cons, List.length_nil] at h; omega
  rcases b with _ | ⟨a11, b⟩
  · simp only [List.length_cons, List.length_nil] at h; omega
  rcases b with _ | ⟨a12, b⟩
  · simp only [List.length_cons, List.length_nil] at h; omega
  rcases b with _ | ⟨a13, b⟩
  · simp only [List.length_cons, List.length_nil] at h; omega
  rcases b with _ | ⟨a14, b⟩
  · simp only [List.length_cons, List.length_nil] at h; omega
  rcases b with _ | ⟨a15, b⟩
  · simp only [List.length_cons, List.length_nil] at h; omega
  rcases b with _ | ⟨a16, b⟩
  · simp only [List.length_cons, List.length_nil] at h; omega
  rcases b with _ | ⟨a17, b⟩
  · simp only [List.length_cons, List.length_nil] at h; omega
  rcases b with _ | ⟨a18, b⟩
  · simp only [List.length_cons, List.length_nil] at h; omega
  rcases b with _ | ⟨a19, b⟩
  · simp only [List.length_cons, List.length_nil] at h; omega
  rcases b with _ | ⟨a20, b⟩
  · exact ⟨a0, a1, a2, a3, a4, a5, a6, a7, a8, a9, a10, a11, a12, a13, a14, a15, a16, a17, a18, a19, rfl⟩
  · simp only [List.length_cons, List.length_nil] at h; omega

lemma exists_len27 (b : List Nat) (h : b.length = 27) :
    ∃ a0 a1 a2 a3 a4 a5 a6 a7 a8 a9 a10 a11 a12 a13 a14 a15 a16 a17 a18 a19 a20 a21 a22 a23 a24 a25 a26,
      b = [a0, a1, a2, a3, a4, a5, a6, a7, a8, a9, a10, a11, a12, a13, a14, a15, a16, a17, a18, a19, a20, a21, a22, a23, a24, a25, a26] := by
  rcases b with _ | ⟨a0, b⟩
  · simp only [List.length_cons, List.length_nil] at h; omega
  rcases b with _ | ⟨a1, b⟩
  · simp only [List.length_cons, List.length_nil] at h; omega
  rcases b with _ | ⟨a2, b⟩
  · simp only [List.length_cons, List.length_nil] at h; omega
  rcases b with _ | ⟨a3, b⟩
  · simp only [List.length_cons, List.length_nil] at h; omega
  rcases b with _ | ⟨a4, b⟩
  · simp only [List.length_cons, List.length_nil] at h; omega
  rcases b with _ | ⟨a5, b⟩
  · simp only [List.length_cons, List.length_nil] at h; omega
  rcases b with _ | ⟨a6, b⟩
  · simp only [List.length_cons, List.length_nil] at h; omega
  rcases b with _ | ⟨a7, b⟩
  · simp only [List.length_cons, List.length_nil] at h; omega
  rcases b with _ | ⟨a8, b⟩
  · simp only [List.length_cons, List.length_nil] at h; omega
  rcases b with _ | ⟨a9, b⟩
  · simp only [List.length_cons, List.length_nil] at h; omega
  rcases b with _ | ⟨a10, b⟩
  · simp only [List.length_cons, List.length_nil] at h; omega
  rcases b with _ | ⟨a11, b⟩
  · simp only [List.length_cons, List.length_nil] at h; omega
  rcases b with _ | ⟨a12, b⟩
  · simp only [List.length_cons, List.length_nil] at h; omega
  rcases b with _ | ⟨a13, b⟩
  · simp only [List.length_cons, List.length_nil] at h; omega
  rcases b with _ | ⟨a14, b⟩
  · simp only [List.length_cons, List.length_nil] at h; omega
  rcases b with _ | ⟨a15, b⟩
  · simp only [List.length_cons, List.length_nil] at h; omega
  rcases b with _ | ⟨a16, b⟩
  · simp only [List.length_cons, List.length_nil] at h; omega
  rcases b with _ | ⟨a17, b⟩
  · simp only [List.length_cons, List.length_nil] at h; omega
  rcases b with _ | ⟨a18, b⟩
  · simp only [List.length_cons, List.length_nil] at h; omega
  rcases b with _ | ⟨a19, b⟩
  · simp only [List.length_cons, List.length_nil] at h; omega
  rcases b with _ | ⟨a20, b⟩
  · simp only [List.length_cons, List.length_nil] at h; omega
  rcases b with _ | ⟨a21, b⟩
  · simp only [List.length_cons, List.length_nil] at h; omega
  rcases b with _ | ⟨a22, b⟩
  · simp only [List.length_cons, List.length_nil] at h; omega
  rcases b with _ | ⟨a23, b⟩
  · simp only [List.length_cons, List.length_nil] at h; omega
  rcases b with _ | ⟨a24, b⟩
  · simp only [List.length_cons, List.length_nil] at h; omega
  rcases b with _ | ⟨a25, b⟩
  · simp only [List.length_cons, List.length_nil] at h; omega
  rcases b with _ | ⟨a26, b⟩
  · simp only [List.length_cons, List.length_nil] at h; omega
  rcases b with _ | ⟨a27, b⟩
  · exact ⟨a0, a1, a2, a3, a4, a5, a6, a7, a8, a9, a10, a11, a12, a13, a14, a15, a16, a17, a18, a19, a20, a21, a22, a23, a24, a25, a26, rfl⟩
  · simp only [List.length_cons, List.length_nil] at h; omega

lemma exists_len28 (b : List Nat) (h : b.length = 28) :
    ∃ a0 a1 a2 a3 a4 a5 a6 a7 a8 a9 a10 a11 a12 a13 a14 a15 a16 a17 a18 a19 a20 a21 a22 a23 a24 a25 a26 a27,
      b = [a0, a1, a2, a3, a4, a5, a6, a7, a8, a9, a10, a11, a12, a13, a14, a15, a16, a17, a18, a19, a20, a21, a22, a23, a24, a25, a26, a27] := by
  rcases b with _ | ⟨a0, b⟩
  · simp only [List.length_cons, List.length_nil] at h; omega
  rcases b with _ | ⟨a1, b⟩
  · simp only [List.length_cons, List.length_nil] at h; omega
  rcases b with _ | ⟨a2, b⟩
  · simp only [List.length_cons, List.length_nil] at h; omega
  rcases b with _ | ⟨a3, b⟩
  · simp only [List.length_cons, List.length_nil] at h; omega
  rcases b with _ | ⟨a4, b⟩
  · simp only [List.length_cons, List.length_nil] at h; omega
  rcases b with _ | ⟨a5, b⟩
  · simp only [List.length_cons, List.length_nil] at h; omega
  rcases b with _ | ⟨a6, b⟩
  · simp only [List.length_cons, List.length_nil] at h; omega
  rcases b with _ | ⟨a7, b⟩
  · simp only [List.length_cons, List.length_nil] at h; omega
  rcases b with _ | ⟨a8, b⟩
  · simp only [List.length_cons, List.length_nil] at h; omega
  rcases b with _ | ⟨a9, b⟩
  · simp only [List.length_cons, List.length_nil] at h; omega
  rcases b with _ | ⟨a10, b⟩
  · simp only [List.length_cons, List.length_nil] at h; omega
  rcases b with _ | ⟨a11, b⟩
  · simp only [List.length_cons, List.length_nil] at h; omega
  rcases b with _ | ⟨a12, b⟩
  · simp only [List.length_cons, List.length_nil] at h; omega
  rcases b with _ | ⟨a13, b⟩
  · simp only [List.length_cons, List.length_nil] at h; omega
  rcases b with _ | ⟨a14, b⟩
  · simp only [List.length_cons, List.length_nil] at h; omega
  rcases b with _ | ⟨a15, b⟩
  · simp only [List.length_cons, List.length_nil] at h; omega
  rcases b with _ | ⟨a16, b⟩
  · simp only [List.length_cons, List.length_nil] at h; omega
  rcases b with _ | ⟨a17, b⟩
  · simp only [List.length_cons, List.length_nil] at h; omega
  rcases b with _ | ⟨a18, b⟩
  · simp only [List.length_cons, List.length_nil] at h; omega
  rcases b with _ | ⟨a19, b⟩
  · simp only [List.length_cons, List.length_nil] at h; omega
  rcases b with _ | ⟨a20, b⟩
  · simp only [List.length_cons, List.length_nil] at h; omega
  rcases b with _ | ⟨a21, b⟩
  · simp only [List.length_cons, List.length_nil] at h; omega
  rcases b with _ | ⟨a22, b⟩
  · simp only [List.length_cons, List.length_nil] at h; omega
  rcases b with _ | ⟨a23, b⟩
  · simp only [List.length_cons, List.length_nil] at h; omega
  rcases b with _ | ⟨a24, b⟩
  · simp only [List.length_cons, List.length_nil] at h; omega
  rcases b with _ | ⟨a25, b⟩
  · simp only [List.length_cons, List.length_nil] at h; omega
  rcases b with _ | ⟨a26, b⟩
  · simp only [List.length_cons, List.length_nil] at h; omega
  rcases b with _ | ⟨a27, b⟩
  · simp only [List.length_cons, List.length_nil] at h; omega
  rcases b with _ | ⟨a28, b⟩
  · exact ⟨a0, a1, a2, a3, a4, a5, a6, a7, a8, a9, a10, a11, a12, a13, a14, a15, a16, a17, a18, a19, a20, a21, a22, a23, a24, a25, a26, a27, rfl⟩
  · simp only [List.length_cons, List.length_nil] at h; omega

lemma exists_ge9 (b : List Nat) (h : 9 ≤ b.length) :
    ∃ a0 a1 a2 a3 a4 a5 a6 a7 a8 rest,
      b = a0 :: a1 :: a2 :: a3 :: a4 :: a5 :: a6 :: a7 :: a8 :: rest := by
  rcases b with _ | ⟨a0, b⟩
  · simp only [List.length_cons, List.length_nil] at h; omega
  rcases b with _ | ⟨a1, b⟩
  · simp only [List.length_cons, List.length_nil] at h; omega
  rcases b with _ | ⟨a2, b⟩
  · simp only [List.length_cons, List.length_nil] at h; omega
  rcases b with _ | ⟨a3, b⟩
  · simp only [List.length_cons, List.length_nil] at h; omega
  rcases b with _ | ⟨a4, b⟩
  · simp only [List.length_cons, List.length_nil] at h; omega
  rcases b with _ | ⟨a5, b⟩
  · simp only [List.length_cons, List.length_nil] at h; omega
  rcases b with _ | ⟨a6, b⟩
  · simp only [List.length_cons, List.length_nil] at h; omega
  rcases b with _ | ⟨a7, b⟩
  · simp only [List.length_cons, List.length_nil] at h; omega
  rcases b with _ | ⟨a8, b⟩
  · simp only [List.length_cons, List.length_nil] at h; omega
  exact ⟨a0, a1, a2, a3, a4, a5, a6, a7, a8, b, rfl⟩

/-! ## per-variant round trips (decode then encode) -/

/-- `parse_packet` on an unknown tag dispatches to the raw decoder. -/
lemma parse_packet_raw (data : List Nat) (ht : totalSizeOfTag (data.getD 0 0) = none)
    (h9 : HEADER_SIZE ≤ data.length) :
    parse_packet data = RawRadioPacket.from_bytes data := by
  simp only [parse_packet, ht]
  rw [if_neg (by omega)]

lemma parse_bytes_hereIAm (b : List Nat) (hv : ∀ x ∈ b, x < 256)
    (hl : b.length = 20) (ht : b.getD 0 0 = 10) :
    ∃ p, parse_packet b = .ok p ∧ p.to_bytes = some b := by
  obtain ⟨a0, a1, a2, a3, a4, a5, a6, a7, a8, a9, a10, a11, a12, a13, a14, a15, a16, a17,
    a18, a19, rfl⟩ := exists_len20 b hl
  simp only [List.getD_cons_zero] at ht
  subst ht
  simp only [List.forall_mem_cons, List.forall_mem_nil, and_true] at hv
  obtain ⟨-, q1, q2, q3, q4, q5, q6, q7, q8, q9, q10, q11, q12, q13, q14, q15, q16,
    q17, q18, q19, -⟩ := hv
  rw [parse_packet_eq_class _ 20 (by rfl) (by simp) (by simp)]
  simp only [classFromBytes, HereIAmPacket.from_bytes,
    List.length_cons, List.length_nil, List.getD_cons_succ, List.getD_cons_zero,
    Nat.reduceAdd, Nat.reduceLT, Nat.reduceEqDiff, eq_self_iff_true, ne_eq, reduceIte,
    not_true, not_false_iff, ite_false, ite_true, HEADER_SIZE_eq, hereIAm_total_eq]
  refine ⟨_, rfl, ?_⟩
  simp only [HereIAmPacket.init, RadioPacket.to_bytes, RadioPacket.packetTypeOf,
    RadioPacket.timeOf, RadioPacket.serialOf, packHeader, RadioPacket.payload_bytes,
    packU8_of_lt (show (10:Nat) < 256 by omega),
    packI32_read a1 a2 a3 a4 q1 q2 q3 q4, packI32_read a5 a6 a7 a8 q5 q6 q7 q8,
    packU8_maskRead a9 q9, packU16_maskRead a10 a11 q10 q11,
    packU16_maskRead a12 a13 q12 q13, packU16_maskRead a14 a15 q14 q15,
    packU32_maskRead a16 a17 a18 a19 q16 q17 q18 q19,
    Option.some_bind', List.cons_append, List.nil_append]

lemma parse_bytes_botCommand (b : List Nat) (hv : ∀ x ∈ b, x < 256)
    (hl : b.length = 28) (ht : b.getD 0 0 = 20) :
    ∃ p, parse_packet b = .ok p ∧ p.to_bytes = some b := by
  obtain ⟨a0, a1, a2, a3, a4, a5, a6, a7, a8, a9, a10, a11, a12, a13, a14, a15, a16, a17, a18, a19, a20, a21, a22, a23, a24, a25, a26, a27, rfl⟩ := exists_len28 b hl
  simp only [List.getD_cons_zero] at ht
  subst ht
  simp only [List.forall_mem_cons, and_true] at hv
  obtain ⟨-, q1, q2, q3, q4, q5, q6, q7, q8, q9, q10, q11, q12, q13, q14, q15, q16, q17, q18, q19, q20, q21, q22, q23, q24, q25, q26, q27, -⟩ := hv
  rw [parse_packet_eq_class _ 28 (by rfl) (by simp) (by simp)]
  simp only [classFromBytes, BotCommandPacket.from_bytes,
    List.length_cons, List.length_nil, List.getD_cons_succ, List.getD_cons_zero,
    Nat.reduceAdd, Nat.reduceLT, Nat.reduceEqDiff, eq_self_iff_true, ne_eq, reduceIte,
    not_true, not_false_iff, ite_false, ite_true, HEADER_SIZE_eq, botCommand_total_eq]
  refine ⟨_, rfl, ?_⟩
  simp only [BotCommandPacket.init, RadioPacket.to_bytes, RadioPacket.packetTypeOf,
    RadioPacket.timeOf, RadioPacket.serialOf, packHeader, RadioPacket.payload_bytes,
    packU8_of_lt (show (20:Nat) < 256 by omega),
    packI32_read a1 a2 a3 a4 q1 q2 q3 q4, packI32_read a5 a6 a7 a8 q5 q6 q7 q8,
    packU8_maskRead a9 q9,
    packI16_read a10 a11 q10 q11, packI16_read a12 a13 q12 q13,
    packI16_read a14 a15 q14 q15, packI16_read a16 a17 q16 q17,
    packI16_read a18 a19 q18 q19, packI16_read a20 a21 q20 q21,
    packI16_read a22 a23 q22 q23,
    packI32_read a24 a25 a26 a27 q24 q25 q26 q27,
    Option.some_bind', List.cons_append, List.nil_append]

lemma parse_bytes_botStatus (b : List Nat) (hv : ∀ x ∈ b, x < 256)
    (hl : b.length = 16) (ht : b.getD 0 0 = 21) :
    ∃ p, parse_packet b = .ok p ∧ p.to_bytes = some b := by
  obtain ⟨a0, a1, a2, a3, a4, a5, a6, a7, a8, a9, a10, a11, a12, a13, a14, a15, rfl⟩ := exists_len16 b hl
  simp only [List.getD_cons_zero] at ht
  subst ht
  simp only [List.forall_mem_cons, and_true] at hv
  obtain ⟨-, q1, q2, q3, q4, q5, q6, q7, q8, q9, q10, q11, q12, q13, q14, q15, -⟩ := hv
  rw [parse_packet_eq_class _ 16 (by rfl) (by simp) (by simp)]
  simp only [classFromBytes, BotStatusPacket.from_bytes,
    List.length_cons, List.length_nil, List.getD_cons_succ, List.getD_cons_zero,
    Nat.reduceAdd, Nat.reduceLT, Nat.reduceEqDiff, eq_self_iff_true, ne_eq, reduceIte,
    not_true, not_false_iff, ite_false, ite_true, HEADER_SIZE_eq, botStatus_total_eq]
  refine ⟨_, rfl, ?_⟩
  simp only [BotStatusPacket.init, RadioPacket.to_bytes, RadioPacket.packetTypeOf,
    RadioPacket.timeOf, RadioPacket.serialOf, packHeader, RadioPacket.payload_bytes,
    packU8_of_lt (show (21:Nat) < 256 by omega),
    packI32_read a1 a2 a3 a4 q1 q2 q3 q4, packI32_read a5 a6 a7 a8 q5 q6 q7 q8,
    packU8_maskRead a9 q9,
    packI16_read a10 a11 q10 q11, packI16_read a12 a13 q12 q13,
    packI16_read a14 a15 q14 q15,
    Option.some_bind', List.cons_append, List.nil_append]

lemma parse_bytes_joystick (b : List Nat) (hv : ∀ x ∈ b, x < 256)
    (hl : b.length = 20) (ht : b.getD 0 0 = 30) :
    ∃ p, parse_packet b = .ok p ∧ p.to_bytes = some b := by
  obtain ⟨a0, a1, a2, a3, a4, a5, a6, a7, a8, a9, a10, a11, a12, a13, a14, a15, a16, a17, a18, a19, rfl⟩ := exists_len20 b hl
  simp only [List.getD_cons_zero] at ht
  subst ht
  simp only [List.forall_mem_cons, and_true] at hv
  obtain ⟨-, q1, q2, q3, q4, q5, q6, q7, q8, q9, q10, q11, q12, q13, q14, q15, q16, q17, q18, q19, -⟩ := hv
  rw [parse_packet_eq_class _ 20 (by rfl) (by simp) (by simp)]
  simp only [classFromBytes, JoystickPacket.from_bytes,
    List.length_cons, List.length_nil, List.getD_cons_succ, List.getD_cons_zero,
    Nat.reduceAdd, Nat.reduceLT, Nat.reduceEqDiff, eq_self_iff_true, ne_eq, reduceIte,
    not_true, not_false_iff, ite_false, ite_true, HEADER_SIZE_eq, joystick_total_eq]
  refine ⟨_, rfl, ?_⟩
  simp only [JoystickPacket.init, RadioPacket.to_bytes, RadioPacket.packetTypeOf,
    RadioPacket.timeOf, RadioPacket.serialOf, packHeader, RadioPacket.payload_bytes,
    packU8_of_lt (show (30:Nat) < 256 by omega),
    packI32_read a1 a2 a3 a4 q1 q2 q3 q4, packI32_read a5 a6 a7 a8 q5 q6 q7 q8,
    packU16_maskRead a9 a10 q9 q10, packU16_maskRead a11 a12 q11 q12,
    packU8_maskRead a13 q13,
    packI16_read a14 a15 q14 q15, packI16_read a16 a17 q16 q17,
    packI16_read a18 a19 q18 q19,
    Option.some_bind', List.cons_append, List.nil_append]

lemma parse_bytes_display (b : List Nat) (hv : ∀ x ∈ b, x < 256)
    (hl : b.length = 27) (ht : b.getD 0 0 = 11) :
    ∃ p, parse_packet b = .ok p ∧ p.to_bytes = some b := by
  obtain ⟨a0, a1, a2, a3, a4, a5, a6, a7, a8, a9, a10, a11, a12, a13, a14, a15, a16, a17, a18, a19, a20, a21, a22, a23, a24, a25, a26, rfl⟩ := exists_len27 b hl
  simp only [List.getD_cons_zero] at ht
  subst ht
  simp only [List.forall_mem_cons, and_true] at hv
  obtain ⟨-, q1, q2, q3, q4, q5, q6, q7, q8, q9, q10, q11, q12, q13, q14, q15, q16, q17, q18, q19, q20, q21, q22, q23, q24, q25, q26, -⟩ := hv
  rw [parse_packet_eq_class _ 27 (by rfl) (by simp) (by simp)]
  simp only [classFromBytes, DisplayPacket.from_bytes,
    List.length_cons, List.length_nil, List.getD_cons_succ, List.getD_cons_zero,
    Nat.reduceAdd, Nat.reduceLT, Nat.reduceEqDiff, eq_self_iff_true, ne_eq, reduceIte,
    not_true, not_false_iff, ite_false, ite_true, HEADER_SIZE_eq, display_total_eq]
  refine ⟨_, rfl, ?_⟩
  have hps : packU8s [a15, a16, a17, a18, a19, a20, a21, a22, a23, a24, a25, a26]
      = some [a15, a16, a17, a18, a19, a20, a21, a22, a23, a24, a25, a26] := by
    unfold packU8s
    rw [if_pos (by simp; omega)]
  simp only [DisplayPacket.init, RadioPacket.to_bytes, RadioPacket.packetTypeOf,
    RadioPacket.timeOf, RadioPacket.serialOf, packHeader, RadioPacket.payload_bytes,
    packU8_of_lt (show (11:Nat) < 256 by omega),
    packI32_read a1 a2 a3 a4 q1 q2 q3 q4, packI32_read a5 a6 a7 a8 q5 q6 q7 q8,
    packU8_maskRead a9 q9, packU8_maskRead a10 q10,
    packU32_maskRead a11 a12 a13 a14 q11 q12 q13 q14,
    colorBytes,
    split_mask_join a15 a16 a17 q15 q16 q17, split_mask_join a18 a19 a20 q18 q19 q20,
    split_mask_join a21 a22 a23 q21 q22 q23, split_mask_join a24 a25 a26 q24 q25 q26,
    hps, Option.some_bind', List.cons_append, List.nil_append]

lemma parse_bytes_raw (b : List Nat) (hv : ∀ x ∈ b, x < 256) (h9 : 9 ≤ b.length)
    (ht : totalSizeOfTag (b.getD 0 0) = none) :
    ∃ tm sr, parse_packet b = .ok (.raw (b.getD 0 0) (b.drop 9) tm sr) ∧
      (RadioPacket.raw (b.getD 0 0) (b.drop 9) tm sr).to_bytes = some b := by
  obtain ⟨a0, a1, a2, a3, a4, a5, a6, a7, a8, rest, rfl⟩ := exists_ge9 b h9
  simp only [List.forall_mem_cons] at hv
  obtain ⟨q0, q1, q2, q3, q4, q5, q6, q7, q8, -⟩ := hv
  rw [parse_packet_raw _ ht (by simp [HEADER_SIZE_eq])]
  rw [RawRadioPacket.from_bytes, if_neg (by simp [HEADER_SIZE_eq])]
  have em : maskN 256 ((a0 : Nat) : Int) = a0 := by unfold maskN; omega
  refine ⟨readI32v a1 a2 a3 a4, readI32v a5 a6 a7 a8, ?_, ?_⟩
  · simp only [RawRadioPacket.init, List.getD_cons_succ, List.getD_cons_zero,
      List.drop_succ_cons, List.drop_zero, HEADER_SIZE_eq, em]
  · simp only [List.getD_cons_succ, List.getD_cons_zero, HEADER_SIZE_eq,
      List.drop_succ_cons, List.drop_zero,
      RadioPacket.to_bytes, RadioPacket.packetTypeOf, RadioPacket.timeOf,
      RadioPacket.serialOf, packHeader, RadioPacket.payload_bytes,
      packU8_of_lt q0,
      packI32_read a1 a2 a3 a4 q1 q2 q3 q4, packI32_read a5 a6 a7 a8 q5 q6 q7 q8,
      Option.some_bind', List.cons_append, List.nil_append]

/-! ## length of encodings -/

lemma packU8_len {v : Nat} {l : List Nat} (h : packU8 v = some l) : l.length = 1 := by
  unfold packU8 at h
  split at h
  · injection h with h2
    subst h2
    rfl
  · cases h

lemma packU16_len {v : Nat} {l : List Nat} (h : packU16 v = some l) : l.length = 2 := by
  unfold packU16 at h
  split at h
  · injection h with h2
    subst h2
    rfl
  · cases h

lemma packU32_len {v : Nat} {l : List Nat} (h : packU32 v = some l) : l.length = 4 := by
  unfold packU32 at h
  split at h
  · injection h with h2
    subst h2
    rfl
  · cases h

lemma packI16_len {v : Int} {l : List Nat} (h : packI16 v = some l) : l.length = 2 := by
  unfold packI16 at h
  split at h
  · injection h with h2
    subst h2
    rfl
  · cases h

lemma packI32_len {v : Int} {l : List Nat} (h : packI32 v = some l) : l.length = 4 := by
  unfold packI32 at h
  split at h
  · injection h with h2
    subst h2
    rfl
  · cases h

lemma packU8s_len {xs l : List Nat} (h : packU8s xs = some l) : l.length = xs.length := by
  unfold packU8s at h
  split at h
  · injection h with h2
    subst h2
    rfl
  · cases h

@[simp] lemma colorBytes_len (a b c d : Nat) : (colorBytes a b c d).length = 12 := rfl

lemma packHeader_len {t : Nat} {tm sr : Int} {l : List Nat}
    (h : packHeader t tm sr = some l) : l.length = 9 := by
  simp only [packHeader, Option.bind_eq_some, Option.some.injEq] at h
  obtain ⟨a, ha, b, hb, c, hc, rfl⟩ := h
  simp only [List.length_append, packU8_len ha, packI32_len hb, packI32_len hc]

lemma payload_len_botCommand {ct : Nat} {m1 m2 m3 m4 du s1 s2 d1 tm sr : Int}
    {l : List Nat}
    (h : (RadioPacket.botCommand ct m1 m2 m3 m4 du s1 s2 d1 tm sr).payload_bytes
      = some l) : l.length = 19 := by
  simp only [RadioPacket.payload_bytes, Option.bind_eq_some, Option.some.injEq] at h
  obtain ⟨a, ha, b1, hb1, b2, hb2, b3, hb3, b4, hb4, b5, hb5, b6, hb6, b7, hb7, c, hc,
    rfl⟩ := h
  simp only [List.length_append, packU8_len ha, packI16_len hb1, packI16_len hb2,
    packI16_len hb3, packI16_len hb4, packI16_len hb5, packI16_len hb6, packI16_len hb7,
    packI32_len hc]

lemma payload_len_botStatus {bt : Nat} {ax ay az tm sr : Int} {l : List Nat}
    (h : (RadioPacket.botStatus bt ax ay az tm sr).payload_bytes = some l) :
    l.length = 7 := by
  simp only [RadioPacket.payload_bytes, Option.bind_eq_some, Option.some.injEq] at h
  obtain ⟨a, ha, b1, hb1, b2, hb2, b3, hb3, rfl⟩ := h
  simp only [List.length_append, packU8_len ha, packI16_len hb1, packI16_len hb2,
    packI16_len hb3]

lemma payload_len_display {tone du im hll hlr nl nr : Nat} {tm sr : Int} {l : List Nat}
    (h : (RadioPacket.display tone du im hll hlr nl nr tm sr).payload_bytes = some l) :
    l.length = 18 := by
  simp only [RadioPacket.payload_bytes, Option.bind_eq_some, Option.some.injEq] at h
  obtain ⟨a, ha, b, hb, c, hc, d, hd, rfl⟩ := h
  simp only [List.length_append, packU8_len ha, packU8_len hb, packU32_len hc,
    packU8s_len hd, colorBytes_len]

lemma payload_len_hereIAm {cid g ch f im : Nat} {tm sr : Int} {l : List Nat}
    (h : (RadioPacket.hereIAm cid g ch f im tm sr).payload_bytes = some l) :
    l.length = 11 := by
  simp only [RadioPacket.payload_bytes, Option.bind_eq_some, Option.some.injEq] at h
  obtain ⟨a, ha, b, hb, c, hc, d, hd, e, he, rfl⟩ := h
  simp only [List.length_append, packU8_len ha, packU16_len hb, packU16_len hc,
    packU16_len hd, packU32_len he]

lemma payload_len_joystick {x y bt : Nat} {ax ay az tm sr : Int} {l : List Nat}
    (h : (RadioPacket.joystick x y bt ax ay az tm sr).payload_bytes = some l) :
    l.length = 11 := by
  simp only [RadioPacket.payload_bytes, Option.bind_eq_some, Option.some.injEq] at h
  obtain ⟨a, ha, b, hb, c, hc, d, hd, e, he, f, hf, rfl⟩ := h
  simp only [List.length_append, packU16_len ha, packU16_len hb, packU8_len hc,
    packI16_len hd, packI16_len he, packI16_len hf]

/-- The total encoded size of each variant, per the source structs: the
class `TOTAL_SIZE` for the five structured variants, header plus payload
length for the raw fallback. -/
def encodedSize : RadioPacket → Nat
  | .raw _ payload _ _ => HEADER_SIZE + payload.length
  | .botCommand .. => BotCommandPacket.TOTAL_SIZE
  | .botStatus .. => BotStatusPacket.TOTAL_SIZE
  | .display .. => DisplayPacket.TOTAL_SIZE
  | .hereIAm .. => HereIAmPacket.TOTAL_SIZE
  | .joystick .. => JoystickPacket.TOTAL_SIZE

/-- 16-bit signed range check. -/
def i16ok (v : Int) : Bool := decide (-32768 ≤ v) && decide (v ≤ 32767)

/-- 32-bit signed range check. -/
def i32ok (v : Int) : Bool := decide (-2147483648 ≤ v) && decide (v ≤ 2147483647)

/-- All fields of a structured packet in their declared ranges; `raw` is not
one of the registered (supported) variants. -/
def wfPacket : RadioPacket → Bool
  | .raw .. => false
  | .botCommand ct m1 m2 m3 m4 du s1 s2 d1 tm sr =>
      decide (ct < 256) && i16ok m1 && i16ok m2 && i16ok m3 && i16ok m4 && i16ok du &&
        i16ok s1 && i16ok s2 && i32ok d1 && i32ok tm && i32ok sr
  | .botStatus bt ax ay az tm sr =>
      decide (bt < 256) && i16ok ax && i16ok ay && i16ok az && i32ok tm && i32ok sr
  | .display tone du im hll hlr nl nr tm sr =>
      decide (tone < 256) && decide (du < 256) && decide (im < 4294967296) &&
        decide (hll < 16777216) && decide (hlr < 16777216) && decide (nl < 16777216) &&
        decide (nr < 16777216) && i32ok tm && i32ok sr
  | .hereIAm cid g ch f im tm sr =>
      decide (cid < 256) && decide (g < 65536) && decide (ch < 65536) &&
        decide (f < 65536) && decide (im < 4294967296) && i32ok tm && i32ok sr
  | .joystick x y bt ax ay az tm sr =>
      decide (x < 65536) && decide (y < 65536) && decide (bt < 256) &&
        i16ok ax && i16ok ay && i16ok az && i32ok tm && i32ok sr

/-! ## peer directory lemmas -/

/-- After an upsert, looking up the inserted key finds the new record. -/
lemma find_dbInsert_self (db : PeerDB) (k : Int) (v : PeerRecord) :
    (dbInsert db k v).find_by_serial k = some v := by
  induction db with
  | nil => simp [dbInsert, PeerDB.find_by_serial]
  | cons kv rest ih =>
      simp only [dbInsert]
      split_ifs with hk
      · simp [PeerDB.find_by_serial]
      · simp [PeerDB.find_by_serial, hk, ih]

/-- An upsert leaves every other key's lookup unchanged. -/
lemma find_dbInsert_other (db : PeerDB) (k : Int) (v : PeerRecord) (s : Int)
    (h : s ≠ k) :
    (dbInsert db k v).find_by_serial s = db.find_by_serial s := by
  induction db with
  | nil => simp [dbInsert, PeerDB.find_by_serial, Ne.symm h]
  | cons kv rest ih =>
      simp only [dbInsert]
      split_ifs with hk
      · subst hk
        simp [PeerDB.find_by_serial, Ne.symm h]
      · simp only [PeerDB.find_by_serial]
        split_ifs with h1 <;> simp [ih]

/-- Whether a packet is the Announce (HereIAm) variant. -/
def isAnnounce : RadioPacket → Bool
  | .hereIAm .. => true
  | _ => false

/-! ## the claims -/

/-- Claim C1 (amended): the shared header is 9 bytes and every successful
encoding has exactly the variant's total struct size: 20 bytes for Announce,
27 for Display, always 28 for BotCommand, 16 for BotStatus, 20 for Joystick,
and 9 plus the payload length for Raw. -/
theorem to_bytes_length (p : RadioPacket) (bs : List Nat)
    (h : p.to_bytes = some bs) : HEADER_SIZE = 9 ∧ bs.length = encodedSize p := by
  refine ⟨rfl, ?_⟩
  simp only [RadioPacket.to_bytes, Option.bind_eq_some, Option.some.injEq] at h
  obtain ⟨hd, hhd, pl, hpl, rfl⟩ := h
  have h9 := packHeader_len hhd
  cases p with
  | raw t payload tm sr =>
      simp only [RadioPacket.payload_bytes, Option.some.injEq] at hpl
      subst hpl
      simp only [encodedSize, List.length_append, h9, HEADER_SIZE_eq]
  | botCommand ct m1 m2 m3 m4 du s1 s2 d1 tm sr =>
      simp only [encodedSize, List.length_append, h9, payload_len_botCommand hpl,
        botCommand_total_eq]
  | botStatus bt ax ay az tm sr =>
      simp only [encodedSize, List.length_append, h9, payload_len_botStatus hpl,
        botStatus_total_eq]
  | display tone du im hll hlr nl nr tm sr =>
      simp only [encodedSize, List.length_append, h9, payload_len_display hpl,
        display_total_eq]
  | hereIAm cid g ch f im tm sr =>
      simp only [encodedSize, List.length_append, h9, payload_len_hereIAm hpl,
        hereIAm_total_eq]
  | joystick x y bt ax ay az tm sr =>
      simp only [encodedSize, List.length_append, h9, payload_len_joystick hpl,
        joystick_total_eq]

/-- Claim C1 counterexample: the spec's stated totals (Announce 18, Display
24, BotCommand 22 basic, BotStatus 15, Joystick 19) do not match the code:
all-zero packets of those variants encode to 20, 27, 28, 16 and 20 bytes. -/
theorem to_bytes_length_counterexample :
    ((HereIAmPacket.init 0 0 0 0 0 0 0).to_bytes).map List.length = some 20 ∧
    ((DisplayPacket.init 0 0 0 0 0 0 0 0 0).to_bytes).map List.length = some 27 ∧
    ((BotCommandPacket.init 0 0 0 0 0 0 0 0 0 0 0).to_bytes).map List.length = some 28 ∧
    ((BotStatusPacket.init 0 0 0 0 0 0).to_bytes).map List.length = some 16 ∧
    ((JoystickPacket.init 0 0 0 0 0 0 0 0).to_bytes).map List.length = some 20 ∧
    ((20 : Nat) ≠ 18 ∧ (27 : Nat) ≠ 24 ∧ (28 : Nat) ≠ 22 ∧ (16 : Nat) ≠ 15 ∧
      (20 : Nat) ≠ 19) := by decide

theorem to_bytes_length_witness :
    HEADER_SIZE = 9 ∧
      ([10, 232, 3, 0, 0, 99, 0, 0, 0, 3, 7, 0, 1, 0, 0, 0, 42, 0, 0, 0] :
          List Nat).length
        = encodedSize (HereIAmPacket.init 3 7 1 0 42 1000 99) :=
  to_bytes_length _ _ (by decide)

/-- Encoding fails whenever the payload packing fails, whatever the header. -/
lemma to_bytes_none_of_payload {p : RadioPacket} (h : p.payload_bytes = none) :
    p.to_bytes = none := by
  unfold RadioPacket.to_bytes
  cases packHeader p.packetTypeOf p.timeOf p.serialOf <;> simp [h]

/-- An out-of-range 16-bit signed value: `struct.pack('<h', v)` raises. -/
abbrev outI16 (v : Int) : Prop := v < -32768 ∨ 32767 < v

/-- An out-of-range 32-bit signed value: `struct.pack('<i', v)` raises. -/
abbrev outI32 (v : Int) : Prop := v < -2147483648 ∨ 2147483647 < v

lemma packI32_out {v : Int} (h : outI32 v) : packI32 v = none := by
  unfold packI32; rw [if_neg (by omega)]

lemma packI16_some {v : Int} {l : List Nat} (h : packI16 v = some l) :
    -32768 ≤ v ∧ v ≤ 32767 := by
  unfold packI16 at h
  split at h
  · assumption
  · cases h

lemma packI32_some {v : Int} {l : List Nat} (h : packI32 v = some l) :
    -2147483648 ≤ v ∧ v ≤ 2147483647 := by
  unfold packI32 at h
  split at h
  · assumption
  · cases h

/-- Encoding fails whenever the header's `time` or `serial` is out of the
signed 32-bit range, for every variant. -/
lemma header_to_bytes_none (p : RadioPacket)
    (h : outI32 p.timeOf ∨ outI32 p.serialOf) : p.to_bytes = none := by
  unfold RadioPacket.to_bytes
  have hh : packHeader p.packetTypeOf p.timeOf p.serialOf = none := by
    unfold packHeader
    rcases h with h | h
    · cases packU8 p.packetTypeOf <;> simp [packI32_out h]
    · cases packU8 p.packetTypeOf <;> cases packI32 p.timeOf <;> simp [packI32_out h]
  rw [hh]
  rfl

/-- Encoding a BotCommand fails whenever any of its signed fields is out of
range. -/
lemma botCommand_to_bytes_none (ct : Nat) (m1 m2 m3 m4 du s1 s2 d1 tm sr : Int)
    (h : outI16 m1 ∨ outI16 m2 ∨ outI16 m3 ∨ outI16 m4 ∨ outI16 du ∨ outI16 s1 ∨
      outI16 s2 ∨ outI32 d1 ∨ outI32 tm ∨ outI32 sr) :
    (RadioPacket.botCommand ct m1 m2 m3 m4 du s1 s2 d1 tm sr).to_bytes = none := by
  cases hb : (RadioPacket.botCommand ct m1 m2 m3 m4 du s1 s2 d1 tm sr).to_bytes with
  | none => rfl
  | some bs =>
      exfalso
      simp only [RadioPacket.to_bytes, RadioPacket.packetTypeOf, RadioPacket.timeOf,
        RadioPacket.serialOf, packHeader, RadioPacket.payload_bytes,
        Option.bind_eq_some, Option.some.injEq] at hb
      obtain ⟨hd, ⟨a, ha, b, hb2, c, hc, -⟩, pl,
        ⟨a1, ha1, b1, hq1, b2, hq2, b3, hq3, b4, hq4, b5, hq5, b6, hq6, b7, hq7,
          c9, hq9, -⟩, -⟩ := hb
      have r1 := packI16_some hq1
      have r2 := packI16_some hq2
      have r3 := packI16_some hq3
      have r4 := packI16_some hq4
      have r5 := packI16_some hq5
      have r6 := packI16_some hq6
      have r7 := packI16_some hq7
      have r9 := packI32_some hq9
      have rtm := packI32_some hb2
      have rsr := packI32_some hc
      rcases h with h|h|h|h|h|h|h|h|h|h <;> rcases h with h|h <;> omega

/-- Encoding a BotStatus fails whenever any of its signed fields is out of
range. -/
lemma botStatus_to_bytes_none (bt : Nat) (ax ay az tm sr : Int)
    (h : outI16 ax ∨ outI16 ay ∨ outI16 az ∨ outI32 tm ∨ outI32 sr) :
    (RadioPacket.botStatus bt ax ay az tm sr).to_bytes = none := by
  cases hb : (RadioPacket.botStatus bt ax ay az tm sr).to_bytes with
  | none => rfl
  | some bs =>
      exfalso
      simp only [RadioPacket.to_bytes, RadioPacket.packetTypeOf, RadioPacket.timeOf,
        RadioPacket.serialOf, packHeader, RadioPacket.payload_bytes,
        Option.bind_eq_some, Option.some.injEq] at hb
      obtain ⟨hd, ⟨a, ha, b, hb2, c, hc, -⟩, pl,
        ⟨a1, ha1, b1, hq1, b2, hq2, b3, hq3, -⟩, -⟩ := hb
      have r1 := packI16_some hq1
      have r2 := packI16_some hq2
      have r3 := packI16_some hq3
      have rtm := packI32_some hb2
      have rsr := packI32_some hc
      rcases h with h|h|h|h|h <;> rcases h with h|h <;> omega

/-- Encoding a Joystick fails whenever any of its signed fields is out of
range. -/
lemma joystick_to_bytes_none (x y bt : Nat) (ax ay az tm sr : Int)
    (h : outI16 ax ∨ outI16 ay ∨ outI16 az ∨ outI32 tm ∨ outI32 sr) :
    (RadioPacket.joystick x y bt ax ay az tm sr).to_bytes = none := by
  cases hb : (RadioPacket.joystick x y bt ax ay az tm sr).to_bytes with
  | none => rfl
  | some bs =>
      exfalso
      simp only [RadioPacket.to_bytes, RadioPacket.packetTypeOf, RadioPacket.timeOf,
        RadioPacket.serialOf, packHeader, RadioPacket.payload_bytes,
        Option.bind_eq_some, Option.some.injEq] at hb
      obtain ⟨hd, ⟨a, ha, b, hb2, c, hc, -⟩, pl,
        ⟨a1, ha1, b1, hq1, c1, hqc, d1, hq2, e1, hq3, f1, hq4, -⟩, -⟩ := hb
      have r1 := packI16_some hq2
      have r2 := packI16_some hq3
      have r3 := packI16_some hq4
      have rtm := packI32_some hb2
      have rsr := packI32_some hc
      rcases h with h|h|h|h|h <;> rcases h with h|h <;> omega

/-- Claim C2 (corrected): the constructors mask exactly the listed unsigned
fields (command_type, buttons, tone, Display duration, image, the four
colours, x, y, class_id, group, channel, flags) and store every signed field
(motor1-4, BotCommand duration, servo1, servo2, data1, accel_x/y/z, and
every variant's time and serial) unchanged; encoding fails (struct.error)
whenever any signed field of any variant is out of its range, instead of
wrapping; every masked field of every variant wraps on construction and the
wrapped value survives an encode/decode round trip for arbitrary
out-of-range inputs; and in particular a BotCommand built with
`motor1 = 40000` stores 40000 itself and does not encode. -/
theorem field_masking :
    ((∀ ct m1 m2 m3 m4 du s1 s2 d1 tm sr : Int,
        BotCommandPacket.init ct m1 m2 m3 m4 du s1 s2 d1 tm sr
          = .botCommand (maskN 256 ct) m1 m2 m3 m4 du s1 s2 d1 tm sr) ∧
      (∀ bt ax ay az tm sr : Int,
        BotStatusPacket.init bt ax ay az tm sr
          = .botStatus (maskN 256 bt) ax ay az tm sr) ∧
      (∀ tone du im hll hlr nl nr tm sr : Int,
        DisplayPacket.init tone du im hll hlr nl nr tm sr
          = .display (maskN 256 tone) (maskN 256 du) (maskN 4294967296 im)
              (maskN 16777216 hll) (maskN 16777216 hlr) (maskN 16777216 nl)
              (maskN 16777216 nr) tm sr) ∧
      (∀ cid g ch f im tm sr : Int,
        HereIAmPacket.init cid g ch f im tm sr
          = .hereIAm (maskN 256 cid) (maskN 65536 g) (maskN 65536 ch)
              (maskN 65536 f) (maskN 4294967296 im) tm sr) ∧
      (∀ x y bt ax ay az tm sr : Int,
        JoystickPacket.init x y bt ax ay az tm sr
          = .joystick (maskN 65536 x) (maskN 65536 y) (maskN 256 bt)
              ax ay az tm sr)) ∧
    ((∀ ct m1 m2 m3 m4 du s1 s2 d1 tm sr : Int,
        outI16 m1 ∨ outI16 m2 ∨ outI16 m3 ∨ outI16 m4 ∨ outI16 du ∨ outI16 s1 ∨
          outI16 s2 ∨ outI32 d1 ∨ outI32 tm ∨ outI32 sr →
        (BotCommandPacket.init ct m1 m2 m3 m4 du s1 s2 d1 tm sr).to_bytes = none) ∧
      (∀ bt ax ay az tm sr : Int,
        outI16 ax ∨ outI16 ay ∨ outI16 az ∨ outI32 tm ∨ outI32 sr →
        (BotStatusPacket.init bt ax ay az tm sr).to_bytes = none) ∧
      (∀ x y bt ax ay az tm sr : Int,
        outI16 ax ∨ outI16 ay ∨ outI16 az ∨ outI32 tm ∨ outI32 sr →
        (JoystickPacket.init x y bt ax ay az tm sr).to_bytes = none) ∧
      (∀ tone du im hll hlr nl nr tm sr : Int, outI32 tm ∨ outI32 sr →
        (DisplayPacket.init tone du im hll hlr nl nr tm sr).to_bytes = none) ∧
      (∀ cid g ch f im tm sr : Int, outI32 tm ∨ outI32 sr →
        (HereIAmPacket.init cid g ch f im tm sr).to_bytes = none) ∧
      (∀ (t : Int) (payload : List Nat) (tm sr : Int), outI32 tm ∨ outI32 sr →
        (RawRadioPacket.init t payload tm sr).to_bytes = none)) ∧
    ((∀ ct m1 m2 m3 m4 du s1 s2 d1 tm sr : Int,
        -32768 ≤ m1 → m1 ≤ 32767 → -32768 ≤ m2 → m2 ≤ 32767 →
        -32768 ≤ m3 → m3 ≤ 32767 → -32768 ≤ m4 → m4 ≤ 32767 →
        -32768 ≤ du → du ≤ 32767 → -32768 ≤ s1 → s1 ≤ 32767 →
        -32768 ≤ s2 → s2 ≤ 32767 →
        -2147483648 ≤ d1 → d1 ≤ 2147483647 →
        -2147483648 ≤ tm → tm ≤ 2147483647 →
        -2147483648 ≤ sr → sr ≤ 2147483647 →
        ∃ bs,
          (BotCommandPacket.init ct m1 m2 m3 m4 du s1 s2 d1 tm sr).to_bytes
              = some bs ∧
            parse_packet bs
              = .ok (BotCommandPacket.init ct m1 m2 m3 m4 du s1 s2 d1 tm sr)) ∧
      (∀ bt ax ay az tm sr : Int,
        -32768 ≤ ax → ax ≤ 32767 → -32768 ≤ ay → ay ≤ 32767 →
        -32768 ≤ az → az ≤ 32767 →
        -2147483648 ≤ tm → tm ≤ 2147483647 →
        -2147483648 ≤ sr → sr ≤ 2147483647 →
        ∃ bs, (BotStatusPacket.init bt ax ay az tm sr).to_bytes = some bs ∧
          parse_packet bs = .ok (BotStatusPacket.init bt ax ay az tm sr)) ∧
      (∀ tone du im hll hlr nl nr tm sr : Int,
        -2147483648 ≤ tm → tm ≤ 2147483647 →
        -2147483648 ≤ sr → sr ≤ 2147483647 →
        ∃ bs,
          (DisplayPacket.init tone du im hll hlr nl nr tm sr).to_bytes = some bs ∧
            parse_packet bs
              = .ok (DisplayPacket.init tone du im hll hlr nl nr tm sr)) ∧
      (∀ cid g ch f im tm sr : Int,
        -2147483648 ≤ tm → tm ≤ 2147483647 →
        -2147483648 ≤ sr → sr ≤ 2147483647 →
        ∃ bs, (HereIAmPacket.init cid g ch f im tm sr).to_bytes = some bs ∧
          parse_packet bs = .ok (HereIAmPacket.init cid g ch f im tm sr)) ∧
      (∀ x y bt ax ay az tm sr : Int,
        -32768 ≤ ax → ax ≤ 32767 → -32768 ≤ ay → ay ≤ 32767 →
        -32768 ≤ az → az ≤ 32767 →
        -2147483648 ≤ tm → tm ≤ 2147483647 →
        -2147483648 ≤ sr → sr ≤ 2147483647 →
        ∃ bs, (JoystickPacket.init x y bt ax ay az tm sr).to_bytes = some bs ∧
          parse_packet bs = .ok (JoystickPacket.init x y bt ax ay az tm sr))) ∧
    BotCommandPacket.init 0 40000 0 0 0 0 0 0 0 0 0
      = RadioPacket.botCommand 0 40000 0 0 0 0 0 0 0 0 0 := by
  refine ⟨⟨?_, ?_, ?_, ?_, ?_⟩, ⟨?_, ?_, ?_, ?_, ?_, ?_⟩, ⟨?_, ?_, ?_, ?_, ?_⟩,
    by decide⟩
  · intro ct m1 m2 m3 m4 du s1 s2 d1 tm sr; rfl
  · intro bt ax ay az tm sr; rfl
  · intro tone du im hll hlr nl nr tm sr; rfl
  · intro cid g ch f im tm sr; rfl
  · intro x y bt ax ay az tm sr; rfl
  · intro ct m1 m2 m3 m4 du s1 s2 d1 tm sr h
    simp only [BotCommandPacket.init]
    exact botCommand_to_bytes_none _ m1 m2 m3 m4 du s1 s2 d1 tm sr h
  · intro bt ax ay az tm sr h
    simp only [BotStatusPacket.init]
    exact botStatus_to_bytes_none _ ax ay az tm sr h
  · intro x y bt ax ay az tm sr h
    simp only [JoystickPacket.init]
    exact joystick_to_bytes_none _ _ _ ax ay az tm sr h
  · intro tone du im hll hlr nl nr tm sr h
    simp only [DisplayPacket.init]
    exact header_to_bytes_none _ h
  · intro cid g ch f im tm sr h
    simp only [HereIAmPacket.init]
    exact header_to_bytes_none _ h
  · intro t payload tm sr h
    simp only [RawRadioPacket.init]
    exact header_to_bytes_none _ h
  · intro ct m1 m2 m3 m4 du s1 s2 d1 tm sr g1 g1' g2 g2' g3 g3' g4 g4' g5 g5'
      g6 g6' g7 g7' g8 g8' h6 h7 h8 h9
    simp only [BotCommandPacket.init]
    exact round_botCommand _ m1 m2 m3 m4 du s1 s2 d1 tm sr (by unfold maskN; omega)
      g1 g1' g2 g2' g3 g3' g4 g4' g5 g5' g6 g6' g7 g7' g8 g8' h6 h7 h8 h9
  · intro bt ax ay az tm sr g1 g1' g2 g2' g3 g3' h6 h7 h8 h9
    simp only [BotStatusPacket.init]
    exact round_botStatus _ ax ay az tm sr (by unfold maskN; omega)
      g1 g1' g2 g2' g3 g3' h6 h7 h8 h9
  · intro tone du im hll hlr nl nr tm sr h6 h7 h8 h9
    simp only [DisplayPacket.init]
    exact round_display _ _ _ _ _ _ _ tm sr (by unfold maskN; omega)
      (by unfold maskN; omega) (by unfold maskN; omega) (by unfold maskN; omega)
      (by unfold maskN; omega) (by unfold maskN; omega) (by unfold maskN; omega)
      h6 h7 h8 h9
  · intro cid g ch f im tm sr h6 h7 h8 h9
    simp only [HereIAmPacket.init]
    exact round_hereIAm _ _ _ _ _ tm sr (by unfold maskN; omega)
      (by unfold maskN; omega) (by unfold maskN; omega) (by unfold maskN; omega)
      (by unfold maskN; omega) h6 h7 h8 h9
  · intro x y bt ax ay az tm sr g1 g1' g2 g2' g3 g3' h6 h7 h8 h9
    simp only [JoystickPacket.init]
    exact round_joystick _ _ _ ax ay az tm sr (by unfold maskN; omega)
      (by unfold maskN; omega) (by unfold maskN; omega)
      g1 g1' g2 g2' g3 g3' h6 h7 h8 h9

/-- Claim C2 counterexample: a BotCommand constructed with `motor1 = 40000`
stores 40000 (no truncation) and its encoding fails rather than wrapping. -/
theorem field_masking_counterexample :
    BotCommandPacket.init 0 40000 0 0 0 0 0 0 0 0 0
        = RadioPacket.botCommand 0 40000 0 0 0 0 0 0 0 0 0 ∧
      (BotCommandPacket.init 0 40000 0 0 0 0 0 0 0 0 0).to_bytes = none := by decide

theorem field_masking_witness :
    (BotCommandPacket.init 0 40000 0 0 0 0 0 0 0 0 0).to_bytes = none ∧
    (DisplayPacket.init 1 2 3 4 5 6 7 5000000000 0).to_bytes = none ∧
    (∃ bs, (HereIAmPacket.init 3 70000 1 0 42 1000 99).to_bytes = some bs ∧
      parse_packet bs = .ok (HereIAmPacket.init 3 70000 1 0 42 1000 99)) ∧
    (∃ bs, (JoystickPacket.init 70000 2 300 4 5 6 7 8).to_bytes = some bs ∧
      parse_packet bs = .ok (JoystickPacket.init 70000 2 300 4 5 6 7 8)) :=
  ⟨field_masking.2.1.1 0 40000 0 0 0 0 0 0 0 0 0 (Or.inl (by decide)),
   field_masking.2.1.2.2.2.1 1 2 3 4 5 6 7 5000000000 0 (Or.inl (by decide)),
   field_masking.2.2.1.2.2.2.1 3 70000 1 0 42 1000 99 (by decide) (by decide)
     (by decide) (by decide),
   field_masking.2.2.1.2.2.2.2 70000 2 300 4 5 6 7 8 (by decide) (by decide)
     (by decide) (by decide) (by decide) (by decide) (by decide) (by decide)
     (by decide) (by decide)⟩

/-- Claim C3 (amended): `PeerDB.add` performs no type-tag check; handing it
any non-Announce packet fails with an AttributeError (the record derivation
reads Announce-only attributes), not a dedicated wrong-variant ValueError.
For an Announce packet it derives the record, upserts it keyed by the
packet's serial (leaving all other serials untouched) and returns the
stored record. -/
theorem peer_add_spec :
    (∀ (db : PeerDB) (p : RadioPacket), isAnnounce p = false →
      PeerDB.add db p = .error .attributeError) ∧
    (∀ (db : PeerDB) (cid g ch f im : Nat) (tm sr : Int),
      ∃ r db2, PeerDB.add db (.hereIAm cid g ch f im tm sr) = .ok (r, db2) ∧
        r = ⟨sr, cid, g, ch, f, im, tm⟩ ∧
        db2.find_by_serial sr = some r ∧
        ∀ s2, s2 ≠ sr → db2.find_by_serial s2 = db.find_by_serial s2) := by
  constructor
  · intro db p h
    cases p <;> first | rfl | simp [isAnnounce] at h
  · intro db cid g ch f im tm sr
    refine ⟨⟨sr, cid, g, ch, f, im, tm⟩, dbInsert db sr ⟨sr, cid, g, ch, f, im, tm⟩,
      rfl, rfl, find_dbInsert_self db sr _, ?_⟩
    intro s2 hs2
    exact find_dbInsert_other db sr _ s2 hs2

/-- Claim C3 counterexample: adding a BotStatus packet to an empty directory
yields an AttributeError (missing `class_id`), which is not the ValueError
form the codebase uses for variant mismatches. -/
theorem peer_add_counterexample :
    PeerDB.add [] (RadioPacket.botStatus 0 0 0 0 0 0) = .error .attributeError ∧
      PyErr.attributeError ≠ PyErr.notVariant "HereIAm" := by decide

theorem peer_add_witness :
    PeerDB.add [] (RadioPacket.botCommand 0 0 0 0 0 0 0 0 0 0 0)
        = .error .attributeError ∧
      ∃ r db2,
        PeerDB.add [] (RadioPacket.hereIAm 3 7 1 0 42 1000 99) = .ok (r, db2) ∧
          r = ⟨99, 3, 7, 1, 0, 42, 1000⟩ ∧
          db2.find_by_serial 99 = some r ∧
          ∀ s2, s2 ≠ 99 → db2.find_by_serial s2 = PeerDB.find_by_serial [] s2 :=
  ⟨peer_add_spec.1 [] _ (by decide), peer_add_spec.2 [] 3 7 1 0 42 1000 99⟩

/-- `parse_packet` on a buffer at least as long as the registered size
truncates to that size before dispatching. -/
lemma parse_packet_trunc (data : List Nat) (T : Nat)
    (h : totalSizeOfTag (data.getD 0 0) = some T) (hl : T ≤ data.length)
    (h9 : HEADER_SIZE ≤ data.length) :
    parse_packet data = classFromBytes (data.getD 0 0) (data.take T) := by
  simp only [parse_packet, h]
  rw [if_neg (by omega), if_neg (by omega)]

/-- Claim C4: for every supported (registered) variant with in-range fields,
decoding the encoding reproduces the packet exactly; and every byte string
of exactly the canonical total size for its type tag (any length at least
the header, for unregistered tags) is reproduced exactly by encoding its
decoding. -/
theorem round_trip_contract :
    (∀ p : RadioPacket, wfPacket p = true →
      ∃ bs, p.to_bytes = some bs ∧ parse_packet bs = .ok p) ∧
    (∀ b : List Nat, (∀ x ∈ b, x < 256) → HEADER_SIZE ≤ b.length →
      (∀ T, totalSizeOfTag (b.getD 0 0) = some T → b.length = T) →
      ∃ p, parse_packet b = .ok p ∧ p.to_bytes = some b) := by
  constructor
  · intro p hwf
    cases p with
    | raw t payload tm sr => simp [wfPacket] at hwf
    | botCommand ct m1 m2 m3 m4 du s1 s2 d1 tm sr =>
        simp only [wfPacket, i16ok, i32ok, Bool.and_eq_true, decide_eq_true_eq,
          and_assoc] at hwf
        obtain ⟨h1, g1, g1', g2, g2', g3, g3', g4, g4', g5, g5', g6, g6', g7, g7',
          g8, g8', h6, h7, h8, h9⟩ := hwf
        exact round_botCommand ct m1 m2 m3 m4 du s1 s2 d1 tm sr h1 g1 g1' g2 g2'
          g3 g3' g4 g4' g5 g5' g6 g6' g7 g7' g8 g8' h6 h7 h8 h9
    | botStatus bt ax ay az tm sr =>
        simp only [wfPacket, i16ok, i32ok, Bool.and_eq_true, decide_eq_true_eq,
          and_assoc] at hwf
        obtain ⟨h1, g1, g1', g2, g2', g3, g3', h6, h7, h8, h9⟩ := hwf
        exact round_botStatus bt ax ay az tm sr h1 g1 g1' g2 g2' g3 g3' h6 h7 h8 h9
    | display tone du im hll hlr nl nr tm sr =>
        simp only [wfPacket, i16ok, i32ok, Bool.and_eq_true, decide_eq_true_eq,
          and_assoc] at hwf
        obtain ⟨h1, h2, h3, c1, c2, c3, c4, h6, h7, h8, h9⟩ := hwf
        exact round_display tone du im hll hlr nl nr tm sr h1 h2 h3 c1 c2 c3 c4
          h6 h7 h8 h9
    | hereIAm cid g ch f im tm sr =>
        simp only [wfPacket, i16ok, i32ok, Bool.and_eq_true, decide_eq_true_eq,
          and_assoc] at hwf
        obtain ⟨h1, h2, h3, h4, h5, h6, h7, h8, h9⟩ := hwf
        exact round_hereIAm cid g ch f im tm sr h1 h2 h3 h4 h5 h6 h7 h8 h9
    | joystick x y bt ax ay az tm sr =>
        simp only [wfPacket, i16ok, i32ok, Bool.and_eq_true, decide_eq_true_eq,
          and_assoc] at hwf
        obtain ⟨hx, hy, h1, g1, g1', g2, g2', g3, g3', h6, h7, h8, h9⟩ := hwf
        exact round_joystick x y bt ax ay az tm sr hx hy h1 g1 g1' g2 g2' g3 g3'
          h6 h7 h8 h9
  · intro b hv h9 hc
    rcases htag : totalSizeOfTag (b.getD 0 0) with _ | T
    · obtain ⟨tm, sr, hp, he⟩ := parse_bytes_raw b hv (by simpa using h9) htag
      exact ⟨_, hp, he⟩
    · have hlen := hc T htag
      unfold totalSizeOfTag at htag
      split_ifs at htag with e20 e21 e11 e10 e30
      · cases htag
        exact parse_bytes_botCommand b hv (by simpa using hlen) e20
      · cases htag
        exact parse_bytes_botStatus b hv (by simpa using hlen) e21
      · cases htag
        exact parse_bytes_display b hv (by simpa using hlen) e11
      · cases htag
        exact parse_bytes_hereIAm b hv (by simpa using hlen) e10
      · cases htag
        exact parse_bytes_joystick b hv (by simpa using hlen) e30

theorem round_trip_contract_witness :
    (wfPacket (RadioPacket.hereIAm 3 7 1 0 42 1000 99) = true ∧
      ∃ bs, (RadioPacket.hereIAm 3 7 1 0 42 1000 99).to_bytes = some bs ∧
        parse_packet bs = .ok (RadioPacket.hereIAm 3 7 1 0 42 1000 99)) ∧
    (∃ p, parse_packet [99, 0, 0, 0, 0, 0, 0, 0, 0, 1, 2] = .ok p ∧
      p.to_bytes = some [99, 0, 0, 0, 0, 0, 0, 0, 0, 1, 2]) :=
  ⟨⟨by decide, round_trip_contract.1 _ (by decide)⟩,
   round_trip_contract.2 [99, 0, 0, 0, 0, 0, 0, 0, 0, 1, 2] (by decide) (by decide)
     (fun _ hT => absurd hT (by simp [totalSizeOfTag]))⟩

/-- Claim C6: decoding any buffer shorter than the 9-byte header fails with
the short-buffer error, for every tag including unregistered (Raw) ones; a
buffer with a registered tag that is shorter than the variant's total size
fails with the short-buffer error naming the expected and actual sizes; and
decoding never succeeds on fewer bytes than the variant requires. -/
theorem short_buffer_rejection :
    (∀ b : List Nat, b.length < HEADER_SIZE →
      parse_packet b = .error .tooShortToDecode) ∧
    (∀ (b : List Nat) (T : Nat), HEADER_SIZE ≤ b.length →
      totalSizeOfTag (b.getD 0 0) = some T → b.length < T →
      parse_packet b = .error (.shortForClass T b.length)) ∧
    (∀ (b : List Nat) (p : RadioPacket), parse_packet b = .ok p →
      HEADER_SIZE ≤ b.length ∧
        ∀ T, totalSizeOfTag (b.getD 0 0) = some T → T ≤ b.length) := by
  refine ⟨?_, ?_, ?_⟩
  · intro b h
    unfold parse_packet
    rw [if_pos h]
  · intro b T h9 htag hlt
    simp only [parse_packet, htag]
    rw [if_neg (by omega), if_pos hlt]
  · intro b p h
    by_cases h9 : b.length < HEADER_SIZE
    · unfold parse_packet at h
      rw [if_pos h9] at h
      cases h
    · refine ⟨by omega, ?_⟩
      intro T htag
      by_cases hlt : b.length < T
      · simp only [parse_packet, htag] at h
        rw [if_neg h9, if_pos hlt] at h
        cases h
      · omega

theorem short_buffer_rejection_witness :
    parse_packet [20, 1, 2] = .error .tooShortToDecode ∧
      parse_packet [20, 0, 0, 0, 0, 0, 0, 0, 0, 1] = .error (.shortForClass 28 10) :=
  ⟨short_buffer_rejection.1 [20, 1, 2] (by decide),
   short_buffer_rejection.2.1 [20, 0, 0, 0, 0, 0, 0, 0, 0, 1] 28 (by decide) (by decide)
     (by decide)⟩

/-- Claim C7: a buffer of at least 9 bytes whose first byte is none of the
registered tags 10, 11, 20, 21, 30 decodes as a Raw packet whose payload is
every byte after the 9-byte header, and re-encoding that packet reproduces
the buffer exactly. -/
theorem unknown_tag_fallback (b : List Nat) (hv : ∀ x ∈ b, x < 256)
    (h9 : 9 ≤ b.length)
    (ht : b.getD 0 0 ∉ ([10, 11, 20, 21, 30] : List Nat)) :
    ∃ tm sr, parse_packet b = .ok (.raw (b.getD 0 0) (b.drop 9) tm sr) ∧
      (RadioPacket.raw (b.getD 0 0) (b.drop 9) tm sr).to_bytes = some b := by
  apply parse_bytes_raw b hv h9
  unfold totalSizeOfTag
  rw [if_neg (fun hh => ht (by rw [hh]; decide)), if_neg (fun hh => ht (by rw [hh]; decide)),
    if_neg (fun hh => ht (by rw [hh]; decide)), if_neg (fun hh => ht (by rw [hh]; decide)),
    if_neg (fun hh => ht (by rw [hh]; decide))]

theorem unknown_tag_fallback_witness :
    ∃ tm sr,
      parse_packet [99, 0, 0, 0, 0, 0, 0, 0, 0, 1, 2]
          = .ok (.raw 99 [1, 2] tm sr) ∧
        (RadioPacket.raw 99 [1, 2] tm sr).to_bytes
          = some [99, 0, 0, 0, 0, 0, 0, 0, 0, 1, 2] :=
  unknown_tag_fallback [99, 0, 0, 0, 0, 0, 0, 0, 0, 1, 2] (by decide) (by decide)
    (by decide)

/-- Claim C8: for a registered tag, decoding a canonical-size buffer with an
arbitrary suffix appended gives exactly the same result as decoding the
canonical buffer alone: the surplus is truncated away and never an error. -/
theorem over_length_tolerance (b suffix : List Nat) (T : Nat)
    (htag : totalSizeOfTag (b.getD 0 0) = some T) (hl : b.length = T) :
    parse_packet (b ++ suffix) = parse_packet b := by
  have hT9 : 9 ≤ T := by
    unfold totalSizeOfTag at htag
    split_ifs at htag <;> cases htag <;> simp
  have hb0 : 0 < b.length := by omega
  have hg : (b ++ suffix).getD 0 0 = b.getD 0 0 := List.getD_append _ _ _ _ hb0
  rw [parse_packet_eq_class b T htag hl (by simp only [HEADER_SIZE_eq]; omega)]
  rw [parse_packet_trunc (b ++ suffix) T (by rw [hg]; exact htag)
    (by simp only [List.length_append]; omega)
    (by simp only [List.length_append, HEADER_SIZE_eq]; omega)]
  rw [hg]
  congr 1
  rw [← hl, List.take_left]

theorem over_length_tolerance_witness :
    parse_packet ([21, 0, 0, 0, 0, 0, 0, 0, 0, 5, 1, 0, 2, 0, 3, 0] ++ [7, 8, 9])
      = parse_packet [21, 0, 0, 0, 0, 0, 0, 0, 0, 5, 1, 0, 2, 0, 3, 0] :=
  over_length_tolerance _ [7, 8, 9] 16 (by decide) (by decide)

/-- Claim C5: inbound line classification of the serial transport:
`"r: 0a1b"` yields `("r", bytes 0x0a 0x1b)`; `"hello world"` (no colon)
yields `("log", "hello world")`; `"status: armed"` yields
`("status", "armed")`; and `"r: zz"` (invalid hex) yields `("r", empty
bytes)` rather than raising. -/
theorem line_classification :
    processLine "r: 0a1b" = some ("r", .bytes [10, 27]) ∧
    processLine "hello world" = some ("log", .text "hello world") ∧
    processLine "status: armed" = some ("status", .text "armed") ∧
    processLine "r: zz" = some ("r", .bytes []) := by decide

/-- A non-empty character list does not build the empty string. -/
lemma stringMk_ne_empty {l : List Char} (h : l ≠ []) : String.mk l ≠ "" := by
  intro hh
  apply h
  have h2 := congrArg String.data hh
  simpa using h2

/-- The command of a classified line is never the empty string. -/
lemma classify_fst_ne (t : List Char) : (classifyChars t).1 ≠ "" := by
  unfold classifyChars
  rcases splitAtColon t with _ | ⟨pre, rest⟩
  · simp
  · simp only []
    by_cases hmap : (pyStrip pre).map Char.toLower = []
    · simp [hmap]
    · simp only [hmap, ite_false]
      split_ifs with hr
      · split <;> exact stringMk_ne_empty hmap
      · exact stringMk_ne_empty hmap

/-- Splitting at the first colon, when the text before it has no colon. -/
lemma splitAtColon_ws (pre rest : List Char) (h : ∀ c ∈ pre, isPySpace c = true) :
    splitAtColon (pre ++ ':' :: rest) = some (pre, rest) := by
  induction pre with
  | nil => simp [splitAtColon]
  | cons c cs ih =>
      have hc : c ≠ ':' := by
        intro hceq
        have := h c (by simp)
        rw [hceq] at this
        simp [isPySpace] at this
      have ih2 := ih (fun x hx => h x (by simp [hx]))
      simp [splitAtColon, hc, ih2]

/-- Stripping a whitespace-only text gives the empty text. -/
lemma pyStrip_ws (l : List Char) (h : ∀ c ∈ l, isPySpace c = true) :
    pyStrip l = [] := by
  unfold pyStrip
  rw [List.dropWhile_eq_nil_iff.mpr h]
  simp

/-- Claim C9: every `(command, payload)` event yielded by the transport has a
non-empty command string; in particular a line containing a colon whose text
before the first colon is empty or whitespace-only is classified as command
"log" with the stripped text after the colon as payload. -/
theorem event_command_nonempty :
    (∀ (line : String) (cmd : String) (d : LineData),
      processLine line = some (cmd, d) → cmd ≠ "") ∧
    (∀ pre rest : List Char, (∀ c ∈ pre, isPySpace c = true) →
      classifyChars (pre ++ ':' :: rest)
        = ("log", .text (String.mk (pyStrip rest)))) := by
  constructor
  · intro line cmd d h
    simp only [processLine] at h
    split at h
    · cases h
    · injection h with h2
      intro hc
      have h3 := classify_fst_ne (rstripCRLF line.data)
      rw [h2, hc] at h3
      exact h3 rfl
  · intro pre rest h
    unfold classifyChars
    rw [splitAtColon_ws pre rest h]
    simp [pyStrip_ws pre h]

theorem event_command_nonempty_witness :
    ("log" : String) ≠ "" ∧
      classifyChars ((' ' :: '\t' :: []) ++ ':' :: ('h' :: 'i' :: []))
        = ("log", .text (String.mk (pyStrip ('h' :: 'i' :: [])))) :=
  ⟨event_command_nonempty.1 "hello" "log" (.text "hello") (by decide),
   event_command_nonempty.2 (' ' :: '\t' :: []) ('h' :: 'i' :: []) (by decide)⟩

/-! ## peer directory state over operation sequences -/

/-- One `add` step (a raising add leaves the directory unchanged). -/
def replayAdd (db : PeerDB) (p : RadioPacket) : PeerDB := applyOp db (.add p)

/-- Replay only add operations from the empty directory. -/
def replay (ps : List RadioPacket) : PeerDB := ps.foldl replayAdd []

/-- Running a full operation sequence is the same as replaying only the adds
since the last clear. -/
lemma runOps_eq_replay (ops : List POp) :
    runOps ops = replay (addsSinceClear ops) := by
  suffices h : ∀ (ops : List POp) (db : PeerDB) (acc : List RadioPacket),
      db = replay acc →
      ops.foldl applyOp db
        = replay (ops.foldl
            (fun acc op =>
              match op with
              | POp.add p => acc ++ [p]
              | POp.clear => []) acc) by
    exact h ops [] [] rfl
  intro ops
  induction ops with
  | nil => intro db acc h; simpa using h
  | cons op ops ih =>
      intro db acc h
      cases op with
      | add p =>
          simp only [List.foldl_cons]
          apply ih
          rw [h]
          simp [replay, List.foldl_append, replayAdd]
      | clear =>
          simp only [List.foldl_cons]
          apply ih
          rfl

/-- `announceRec` when the record derivation succeeds. -/
lemma announceRec_ok {p : RadioPacket} {r : PeerRecord}
    (h : PeerRecord.from_packet p = .ok r) (s : Int) :
    announceRec s p = if r.serial = s then some r else none := by
  unfold announceRec; rw [h]

/-- `announceRec` when the record derivation fails. -/
lemma announceRec_err {p : RadioPacket} {e : PyErr}
    (h : PeerRecord.from_packet p = .error e) (s : Int) :
    announceRec s p = none := by
  unfold announceRec; rw [h]

/-- `announceSerial` when the record derivation succeeds. -/
lemma announceSerial_ok {p : RadioPacket} {r : PeerRecord}
    (h : PeerRecord.from_packet p = .ok r) :
    announceSerial p = some r.serial := by
  unfold announceSerial; rw [h]; rfl

/-- `announceSerial` when the record derivation fails. -/
lemma announceSerial_err {p : RadioPacket} {e : PyErr}
    (h : PeerRecord.from_packet p = .error e) :
    announceSerial p = none := by
  unfold announceSerial; rw [h]; rfl

/-- Lookup after a replay: the record of the last matching announce. -/
lemma replay_find (ps : List RadioPacket) (s : Int) :
    (replay ps).find_by_serial s = (ps.filterMap (announceRec s)).getLast? := by
  induction ps using List.reverseRecOn with
  | nil => rfl
  | append_singleton ps p ih =>
      have hstep : replay (ps ++ [p]) = replayAdd (replay ps) p := by
        simp [replay, List.foldl_append]
      rw [hstep, List.filterMap_append]
      rcases hfp : PeerRecord.from_packet p with err | r
      · -- no record derived: directory unchanged, no announce in the list
        have h1 : replayAdd (replay ps) p = replay ps := by
          simp [replayAdd, applyOp, PeerDB.add, hfp]
        have h2 : announceRec s p = none := by simp [announceRec, hfp]
        simp [h1, h2, ih]
      · by_cases hs : r.serial = s
        · have h1 : replayAdd (replay ps) p = dbInsert (replay ps) r.serial r := by
            simp [replayAdd, applyOp, PeerDB.add, hfp]
          have h2 : announceRec s p = some r := by simp [announceRec, hfp, hs]
          rw [h1, hs, find_dbInsert_self]
          simp [List.filterMap_cons, h2, List.getLast?_concat]
        · have h1 : replayAdd (replay ps) p = dbInsert (replay ps) r.serial r := by
            simp [replayAdd, applyOp, PeerDB.add, hfp]
          have h2 : announceRec s p = none := by simp [announceRec, hfp, hs]
          rw [h1, find_dbInsert_other _ _ _ _ (fun hh => hs hh.symm)]
          simp [List.filterMap_cons, h2, ih]

/-- The length of a dict after an upsert. -/
lemma dbInsert_length (db : PeerDB) (k : Int) (v : PeerRecord) :
    (dbInsert db k v).length
      = if (db.find_by_serial k).isSome then db.length else db.length + 1 := by
  induction db with
  | nil => simp [dbInsert, PeerDB.find_by_serial]
  | cons kv rest ih =>
      by_cases hk : kv.1 = k
      · simp [dbInsert, hk, PeerDB.find_by_serial]
      · simp only [dbInsert, if_neg hk, List.length_cons, ih, PeerDB.find_by_serial]
        split_ifs <;> omega

/-- A looked-up serial is exactly a serial announced somewhere in the list. -/
lemma replay_find_isSome (ps : List RadioPacket) (s : Int) :
    ((replay ps).find_by_serial s).isSome = true ↔ s ∈ ps.filterMap announceSerial := by
  rw [replay_find, List.getLast?_isSome]
  constructor
  · intro h
    rcases List.exists_mem_of_ne_nil _ h with ⟨r, hr⟩
    rcases List.mem_filterMap.mp hr with ⟨p, hp, hrec⟩
    refine List.mem_filterMap.mpr ⟨p, hp, ?_⟩
    rcases hfp : PeerRecord.from_packet p with err | r2
    · rw [announceRec_err hfp] at hrec
      cases hrec
    · rw [announceRec_ok hfp] at hrec
      rw [announceSerial_ok hfp]
      split_ifs at hrec with hser
      injection hrec with h2
      subst h2
      rw [hser]
  · intro h
    rcases List.mem_filterMap.mp h with ⟨p, hp, hann⟩
    intro hnil
    have hnone := List.filterMap_eq_nil_iff.mp hnil p hp
    rcases hfp : PeerRecord.from_packet p with err | r2
    · rw [announceSerial_err hfp] at hann
      cases hann
    · rw [announceSerial_ok hfp] at hann
      injection hann with h2
      rw [announceRec_ok hfp, if_pos h2] at hnone
      cases hnone

/-- Appending one element to a list inserts it into the element set. -/
lemma toFinset_append_singleton (l : List Int) (x : Int) :
    (l ++ [x]).toFinset = insert x l.toFinset := by
  ext y
  simp [or_comm]

/-- The size of a replayed directory is the number of distinct serials. -/
lemma replay_size (ps : List RadioPacket) :
    (replay ps).length = (ps.filterMap announceSerial).toFinset.card := by
  induction ps using List.reverseRecOn with
  | nil => rfl
  | append_singleton ps p ih =>
      have hstep : replay (ps ++ [p]) = replayAdd (replay ps) p := by
        simp [replay, List.foldl_append]
      rw [hstep, List.filterMap_append]
      rcases hfp : PeerRecord.from_packet p with err | r
      · have h1 : replayAdd (replay ps) p = replay ps := by
          simp [replayAdd, applyOp, PeerDB.add, hfp]
        have h2 : announceSerial p = none := announceSerial_err hfp
        simp [h1, List.filterMap_cons, h2, ih]
      · have h1 : replayAdd (replay ps) p = dbInsert (replay ps) r.serial r := by
          simp [replayAdd, applyOp, PeerDB.add, hfp]
        have h2 : announceSerial p = some r.serial := announceSerial_ok hfp
        have h3 : List.filterMap announceSerial [p] = [r.serial] := by
          simp [List.filterMap_cons, h2]
        rw [h1, dbInsert_length, h3, toFinset_append_singleton]
        by_cases hmem : r.serial ∈ ps.filterMap announceSerial
        · rw [if_pos ((replay_find_isSome ps r.serial).mpr hmem), ih,
            Finset.insert_eq_self.mpr (List.mem_toFinset.mpr hmem)]
        · rw [if_neg (fun hsome => hmem ((replay_find_isSome ps r.serial).mp hsome)),
            ih, Finset.card_insert_of_not_mem (fun hx => hmem (List.mem_toFinset.mp hx))]

/-- Claim C10: after any finite sequence of add and clear operations from an
empty directory, `find_by_serial s` returns exactly the record derived from
the most recently added Announce carrying serial `s` since the last clear
(or nothing); any record it returns has serial `s`; the directory size is the
number of distinct serials announced since the last clear; and a final clear
empties the directory. -/
theorem peer_directory_invariant (ops : List POp) (s : Int) :
    (runOps ops).find_by_serial s = specLastAnnounce ops s ∧
    (∀ r, specLastAnnounce ops s = some r → r.serial = s) ∧
    (runOps ops).size = distinctSerials ops ∧
    (runOps (ops ++ [POp.clear])).size = 0 := by
  refine ⟨?_, ?_, ?_, ?_⟩
  · rw [runOps_eq_replay]
    exact replay_find _ s
  · intro r hr
    unfold specLastAnnounce at hr
    have hmem := List.mem_of_getLast?_eq_some hr
    rcases List.mem_filterMap.mp hmem with ⟨p, _, hrec⟩
    rcases hfp : PeerRecord.from_packet p with err | r2
    · rw [announceRec_err hfp] at hrec
      cases hrec
    · rw [announceRec_ok hfp] at hrec
      split_ifs at hrec with hser
      injection hrec with h2
      subst h2
      exact hser
  · simp only [PeerDB.size, distinctSerials]
    rw [runOps_eq_replay]
    exact replay_size _
  · simp [runOps, List.foldl_append, applyOp, PeerDB.clear, PeerDB.size]

/-- A concrete operation sequence exercising the directory invariant. -/
def c10ops : List POp :=
  [.add (.hereIAm 3 7 1 0 42 1000 99), .add (.botStatus 0 0 0 0 0 0),
    .add (.hereIAm 4 7 1 0 2 1001 99), .add (.hereIAm 5 7 1 0 2 1002 98)]

theorem peer_directory_invariant_witness :
    (runOps c10ops).find_by_serial 99 = specLastAnnounce c10ops 99 ∧
    (∀ r, specLastAnnounce c10ops 99 = some r → r.serial = 99) ∧
    (runOps c10ops).size = distinctSerials c10ops ∧
    (runOps (c10ops ++ [POp.clear])).size = 0 :=
  peer_directory_invariant c10ops 99

example : HEADER_SIZE = 9 := by decide
example : BotCommandPacket.TOTAL_SIZE = 28 := by decide
example : BotStatusPacket.TOTAL_SIZE = 16 := by decide
example : DisplayPacket.TOTAL_SIZE = 27 := by decide
example : HereIAmPacket.TOTAL_SIZE = 20 := by decide
example : JoystickPacket.TOTAL_SIZE = 20 := by decide
example :
    (RadioPacket.to_bytes (HereIAmPacket.init 3 7 1 0 42 1000 99)).map List.length
      = some 20 := by decide
example :
    (RadioPacket.to_bytes (HereIAmPacket.init 3 7 1 0 42 1000 99)).map parse_packet
      = some (.ok (HereIAmPacket.init 3 7 1 0 42 1000 99)) := by decide
example :
    (RadioPacket.to_bytes (BotCommandPacket.init 2 (-7) 5 0 1 100 (-1) 0 9 12 (-50))).map
      parse_packet
      = some (.ok (BotCommandPacket.init 2 (-7) 5 0 1 100 (-1) 0 9 12 (-50))) := by decide
example :
    (RadioPacket.to_bytes (DisplayPacket.init 1 2 3 0xaabbcc 0x010203 0 0xffffff 4 5)).map
      parse_packet
      = some (.ok (DisplayPacket.init 1 2 3 0xaabbcc 0x010203 0 0xffffff 4 5)) := by decide
example :
    (RadioPacket.to_bytes (JoystickPacket.init 512 100 3 (-5) 6 (-7) 8 9)).map parse_packet
      = some (.ok (JoystickPacket.init 512 100 3 (-5) 6 (-7) 8 9)) := by decide
example :
    (RadioPacket.to_bytes (BotStatusPacket.init 3 (-5) 6 (-7) 8 9)).map parse_packet
      = some (.ok (BotStatusPacket.init 3 (-5) 6 (-7) 8 9)) := by decide
example : parse_packet [1, 2, 3] = .error .tooShortToDecode := by decide
example : parse_packet [20, 0,0,0,0, 0,0,0,0, 1] = .error (.shortForClass 28 10) := by decide
example : parse_packet [99, 0,0,0,0, 0,0,0,0, 1, 2] =
    .ok (.raw 99 [1, 2] 0 0) := by decide
